import Mathlib

/-!
Verification of the ChapterhouseQE distributed SQL engine against its
natural-language specification.  Each section shallowly embeds one part of
the Rust source (message codec, query-handler claim pass, operator compute
accounting, query-data service, message router, exchange peer discovery)
and proves or refutes the frozen claims about it.
-/

/-! ## Byte-level helpers

The wire format writes big-endian fixed-width integers (`put_u32`,
`put_u64`, `put_u16`, `put_u128`, `put_u8` from the `bytes` crate).  We
model byte buffers as `List Nat` and fixed-width big-endian encodings as
`toBytesBE k n` (the `k` base-256 digits of `n`, most significant first).
-/

def toBytesBE : Nat → Nat → List Nat
  | 0, _ => []
  | k + 1, n => toBytesBE k (n / 256) ++ [n % 256]

def fromBytesBE (l : List Nat) : Nat :=
  l.foldl (fun a b => a * 256 + b) 0

theorem length_toBytesBE (k n : Nat) : (toBytesBE k n).length = k := by
  induction k generalizing n with
  | zero => rfl
  | succ k ih => simp [toBytesBE, ih]

theorem foldl_toBytesBE (k n a : Nat) :
    (toBytesBE k n).foldl (fun a b => a * 256 + b) a = a * 256 ^ k + n % 256 ^ k := by
  induction k generalizing n a with
  | zero => simp [toBytesBE, Nat.mod_one]
  | succ k ih =>
      simp only [toBytesBE, List.foldl_append, List.foldl_cons, List.foldl_nil, ih]
      have h : n % 256 ^ (k + 1) = 256 * (n / 256 % 256 ^ k) + n % 256 := by
        rw [pow_succ, mul_comm (256 ^ k) 256, Nat.mod_mul]
        ring
      rw [h, pow_succ]
      ring

theorem fromBytesBE_toBytesBE (k n : Nat) (h : n < 256 ^ k) :
    fromBytesBE (toBytesBE k n) = n := by
  unfold fromBytesBE
  rw [foldl_toBytesBE, Nat.zero_mul, Nat.zero_add, Nat.mod_eq_of_lt h]

/-- Read `len` big-endian bytes of `data` starting at byte offset `pos`
(the model of a `Cursor` positioned at `pos` followed by a `get_*` call). -/
def readBE (data : List Nat) (pos len : Nat) : Nat :=
  fromBytesBE ((data.drop pos).take len)

theorem readBE_append (pre l rest : List Nat) (p k : Nat)
    (hp : pre.length = p) (hk : l.length = k) :
    readBE (pre ++ (l ++ rest)) p k = fromBytesBE l := by
  subst hp hk
  rw [readBE, List.drop_left, List.take_left]

namespace Messages

/-- The in-process message (`Message` in
`src/handlers/message_handler/messages.rs`).  The boxed
`dyn SendableMessage` payload is represented by the bytes its `to_bytes`
produces; the registered parser reconstructs the payload from exactly those
bytes. -/
@[ext]
structure Message where
  msg_name_id : Nat
  msg_id : Nat
  msg : List Nat
  sent_from_worker_id : Option Nat
  sent_from_pipeline_id : Option Nat
  sent_from_operation_id : Option Nat
  sent_from_connection_id : Option Nat
  route_to_worker_id : Option Nat
  route_to_operation_id : Option Nat
  route_to_connection_id : Option Nat
  inbound_stream_id : Option Nat
  outbound_stream_id : Option Nat
  deriving Repr, DecidableEq

/-- `SerializedMessage` from `messages.rs`: the parsed wire frame. -/
@[ext]
structure SerializedMessage where
  header_len : Nat
  header_version : Nat
  data_len : Nat
  msg_name_id : Nat
  msg_id : Nat
  sent_from_flags : Nat
  sent_from_worker_id : Nat
  sent_from_pipeline_id : Nat
  sent_from_operation_id : Nat
  sent_from_connection_id : Nat
  routing_flags : Nat
  route_to_worker_id : Nat
  route_to_operation_id : Nat
  route_to_connection_id : Nat
  msg_data : List Nat
  deriving Repr, DecidableEq

/-- `SerializedMessage::header_len()`:
`8 + 2 + 2 + 16 + 1 + 16 + 16 + 16 + 16 + 1 + 16 + 16 + 16 = 142`. -/
def headerLen : Nat := 8 + 2 + 2 + 16 + 1 + 16 + 16 + 16 + 16 + 1 + 16 + 16 + 16

/-- `SerializedMessage::new`: compute the flag bytes from the present
optional ids (absent ids are transmitted as zero). -/
def SerializedMessage.new (m : Message) : SerializedMessage where
  header_len := headerLen
  header_version := 0
  data_len := m.msg.length
  msg_name_id := m.msg_name_id
  msg_id := m.msg_id
  sent_from_flags :=
    (if m.sent_from_worker_id.isSome then 1 else 0) +
    (if m.sent_from_pipeline_id.isSome then 2 else 0) +
    (if m.sent_from_operation_id.isSome then 4 else 0) +
    (if m.sent_from_connection_id.isSome then 8 else 0)
  sent_from_worker_id := m.sent_from_worker_id.getD 0
  sent_from_pipeline_id := m.sent_from_pipeline_id.getD 0
  sent_from_operation_id := m.sent_from_operation_id.getD 0
  sent_from_connection_id := m.sent_from_connection_id.getD 0
  routing_flags :=
    (if m.route_to_worker_id.isSome then 1 else 0) +
    (if m.route_to_operation_id.isSome then 2 else 0) +
    (if m.route_to_connection_id.isSome then 4 else 0)
  route_to_worker_id := m.route_to_worker_id.getD 0
  route_to_operation_id := m.route_to_operation_id.getD 0
  route_to_connection_id := m.route_to_connection_id.getD 0
  msg_data := m.msg

/-- `SerializedMessage::to_bytes`: the wire frame
`u32 header_len | u64 data_len | u16 version | u16 kind | u128 msg_id |
u8 sent_from_flags | 4×u128 | u8 routing_flags | 3×u128 | payload`. -/
def SerializedMessage.to_bytes (s : SerializedMessage) : List Nat :=
  toBytesBE 4 s.header_len ++
  (toBytesBE 8 s.data_len ++
  (toBytesBE 2 s.header_version ++
  (toBytesBE 2 s.msg_name_id ++
  (toBytesBE 16 s.msg_id ++
  (toBytesBE 1 s.sent_from_flags ++
  (toBytesBE 16 s.sent_from_worker_id ++
  (toBytesBE 16 s.sent_from_pipeline_id ++
  (toBytesBE 16 s.sent_from_operation_id ++
  (toBytesBE 16 s.sent_from_connection_id ++
  (toBytesBE 1 s.routing_flags ++
  (toBytesBE 16 s.route_to_worker_id ++
  (toBytesBE 16 s.route_to_operation_id ++
  (toBytesBE 16 s.route_to_connection_id ++
  s.msg_data)))))))))))))

/-- Outcome of `SerializedMessage::parse` on a buffer.  `incomplete` models
`Err(SerializedMessageError::Incomplete)`; `panics` models a Rust panic
(a `Cursor` `get_*` past the end of the buffer, or `BytesMut::advance`
past the end); `ok` carries the parsed frame together with the buffer as
left after `data.advance(4 + header_len + data_len)`. -/
inductive ParseResult where
  | incomplete : ParseResult
  | panics : ParseResult
  | ok : SerializedMessage → List Nat → ParseResult
  deriving Repr, DecidableEq

/-- `SerializedMessage::check`: requires 12 buffered bytes, then compares
the buffer length against `header_len + data_len` (note: not
`4 + header_len + data_len`). -/
def SerializedMessage.check (data : List Nat) : Bool :=
  if data.length < 4 + 8 then false
  else
    let header_len := fromBytesBE (data.take 4)
    let data_len := fromBytesBE ((data.drop 4).take 8)
    decide (header_len + data_len ≤ data.length)

/-- `SerializedMessage::parse`: run `check`, then read every header field
through a cursor over the whole buffer, `read_to_end` the remainder into
`msg_data`, and finally `advance` the buffer by
`4 + header_len + data_len`. -/
def SerializedMessage.parse (data : List Nat) : ParseResult :=
  if data.length < 4 + 8 then .incomplete
  else if data.length < fromBytesBE (data.take 4) + fromBytesBE ((data.drop 4).take 8) then
    .incomplete
  else if data.length < 146 then .panics
  else if data.length < 4 + fromBytesBE (data.take 4) + fromBytesBE ((data.drop 4).take 8) then
    .panics
  else
    .ok
      { header_len := readBE data 0 4
        data_len := readBE data 4 8
        header_version := readBE data 12 2
        msg_name_id := readBE data 14 2
        msg_id := readBE data 16 16
        sent_from_flags := readBE data 32 1
        sent_from_worker_id := readBE data 33 16
        sent_from_pipeline_id := readBE data 49 16
        sent_from_operation_id := readBE data 65 16
        sent_from_connection_id := readBE data 81 16
        routing_flags := readBE data 97 1
        route_to_worker_id := readBE data 98 16
        route_to_operation_id := readBE data 114 16
        route_to_connection_id := readBE data 130 16
        msg_data := data.drop 146 }
      (data.drop (4 + fromBytesBE (data.take 4) + fromBytesBE ((data.drop 4).take 8)))

/-- `Message::build_from_serialized_message`: decode the flag bytes back
into the optional ids; stream ids start out `None`. -/
def Message.build_from_serialized_message (s : SerializedMessage) : Message where
  msg_name_id := s.msg_name_id
  msg_id := s.msg_id
  msg := s.msg_data
  sent_from_worker_id :=
    if s.sent_from_flags &&& 1 = 1 then some s.sent_from_worker_id else none
  sent_from_pipeline_id :=
    if s.sent_from_flags &&& 2 = 2 then some s.sent_from_pipeline_id else none
  sent_from_operation_id :=
    if s.sent_from_flags &&& 4 = 4 then some s.sent_from_operation_id else none
  sent_from_connection_id :=
    if s.sent_from_flags &&& 8 = 8 then some s.sent_from_connection_id else none
  route_to_worker_id :=
    if s.routing_flags &&& 1 = 1 then some s.route_to_worker_id else none
  route_to_operation_id :=
    if s.routing_flags &&& 2 = 2 then some s.route_to_operation_id else none
  route_to_connection_id :=
    if s.routing_flags &&& 4 = 4 then some s.route_to_connection_id else none
  inbound_stream_id := none
  outbound_stream_id := none

/-- Well-formedness of a message as guaranteed by the Rust types: kind id
is a `u16`, all ids are `u128`, the payload is a byte vector whose length
fits a `u64`. -/
def Message.wf (m : Message) : Prop :=
  m.msg_name_id < 256 ^ 2 ∧ m.msg_id < 256 ^ 16 ∧
  m.sent_from_worker_id.getD 0 < 256 ^ 16 ∧
  m.sent_from_pipeline_id.getD 0 < 256 ^ 16 ∧
  m.sent_from_operation_id.getD 0 < 256 ^ 16 ∧
  m.sent_from_connection_id.getD 0 < 256 ^ 16 ∧
  m.route_to_worker_id.getD 0 < 256 ^ 16 ∧
  m.route_to_operation_id.getD 0 < 256 ^ 16 ∧
  m.route_to_connection_id.getD 0 < 256 ^ 16 ∧
  m.msg.length < 256 ^ 8 ∧ ∀ b ∈ m.msg, b < 256

instance (m : Message) : Decidable m.wf := by
  unfold Message.wf
  infer_instance

/-- Well-formedness of a serialized frame as produced by
`SerializedMessage::new`: the stored header length is 142, `data_len`
records the payload length, and every field fits its wire width. -/
def SerializedMessage.wf (s : SerializedMessage) : Prop :=
  s.header_len = 142 ∧ s.header_version < 256 ^ 2 ∧ s.data_len = s.msg_data.length ∧
  s.data_len < 256 ^ 8 ∧ s.msg_name_id < 256 ^ 2 ∧ s.msg_id < 256 ^ 16 ∧
  s.sent_from_flags < 256 ^ 1 ∧ s.sent_from_worker_id < 256 ^ 16 ∧
  s.sent_from_pipeline_id < 256 ^ 16 ∧ s.sent_from_operation_id < 256 ^ 16 ∧
  s.sent_from_connection_id < 256 ^ 16 ∧ s.routing_flags < 256 ^ 1 ∧
  s.route_to_worker_id < 256 ^ 16 ∧ s.route_to_operation_id < 256 ^ 16 ∧
  s.route_to_connection_id < 256 ^ 16

theorem length_to_bytes (s : SerializedMessage) :
    s.to_bytes.length = 146 + s.msg_data.length := by
  simp [SerializedMessage.to_bytes, length_toBytesBE]
  omega

theorem headerLen_eq : headerLen = 142 := by norm_num [headerLen]

theorem flags4_and_1 (b1 b2 b3 b4 : Bool) :
    ((if b1 then 1 else 0) + (if b2 then 2 else 0) + (if b3 then 4 else 0) +
        (if b4 then 8 else 0)) &&& 1 = 1 ↔ b1 = true := by
  cases b1 <;> cases b2 <;> cases b3 <;> cases b4 <;> decide

theorem flags4_and_2 (b1 b2 b3 b4 : Bool) :
    ((if b1 then 1 else 0) + (if b2 then 2 else 0) + (if b3 then 4 else 0) +
        (if b4 then 8 else 0)) &&& 2 = 2 ↔ b2 = true := by
  cases b1 <;> cases b2 <;> cases b3 <;> cases b4 <;> decide

theorem flags4_and_4 (b1 b2 b3 b4 : Bool) :
    ((if b1 then 1 else 0) + (if b2 then 2 else 0) + (if b3 then 4 else 0) +
        (if b4 then 8 else 0)) &&& 4 = 4 ↔ b3 = true := by
  cases b1 <;> cases b2 <;> cases b3 <;> cases b4 <;> decide

theorem flags4_and_8 (b1 b2 b3 b4 : Bool) :
    ((if b1 then 1 else 0) + (if b2 then 2 else 0) + (if b3 then 4 else 0) +
        (if b4 then 8 else 0)) &&& 8 = 8 ↔ b4 = true := by
  cases b1 <;> cases b2 <;> cases b3 <;> cases b4 <;> decide

theorem flags3_and_1 (b1 b2 b3 : Bool) :
    ((if b1 then 1 else 0) + (if b2 then 2 else 0) + (if b3 then 4 else 0)) &&& 1 = 1 ↔
      b1 = true := by
  cases b1 <;> cases b2 <;> cases b3 <;> decide

theorem flags3_and_2 (b1 b2 b3 : Bool) :
    ((if b1 then 1 else 0) + (if b2 then 2 else 0) + (if b3 then 4 else 0)) &&& 2 = 2 ↔
      b2 = true := by
  cases b1 <;> cases b2 <;> cases b3 <;> decide

theorem flags3_and_4 (b1 b2 b3 : Bool) :
    ((if b1 then 1 else 0) + (if b2 then 2 else 0) + (if b3 then 4 else 0)) &&& 4 = 4 ↔
      b3 = true := by
  cases b1 <;> cases b2 <;> cases b3 <;> decide

theorem if_isSome_getD (o : Option Nat) :
    (if o.isSome then some (o.getD 0) else none) = o := by
  cases o <;> simp

theorem flags4_lt (b1 b2 b3 b4 : Bool) :
    ((if b1 then 1 else 0) + (if b2 then 2 else 0) + (if b3 then 4 else 0) +
      (if b4 then 8 else 0)) < 256 ^ 1 := by
  cases b1 <;> cases b2 <;> cases b3 <;> cases b4 <;> decide

theorem flags3_lt (b1 b2 b3 : Bool) :
    ((if b1 then 1 else 0) + (if b2 then 2 else 0) + (if b3 then 4 else 0)) < 256 ^ 1 := by
  cases b1 <;> cases b2 <;> cases b3 <;> decide

theorem readBE_skip (c R : List Nat) (j p k : Nat) (hc : c.length = j) :
    readBE (c ++ R) (j + p) k = readBE R p k := by
  subst hc
  simp [readBE, List.drop_append]

theorem readBE_head (l R : List Nat) (k : Nat) (hk : l.length = k) :
    readBE (l ++ R) 0 k = fromBytesBE l := by
  subst hk
  simp [readBE, List.take_left]

theorem drop_skip (c R : List Nat) (j p : Nat) (hc : c.length = j) :
    (c ++ R).drop (j + p) = R.drop p := by
  subst hc
  simp [List.drop_append]

theorem read_header_len (s : SerializedMessage) (hv : s.header_len < 256 ^ 4) :
    readBE s.to_bytes 0 4 = s.header_len := by
  simp only [SerializedMessage.to_bytes]
  rw [readBE_head _ _ _ (length_toBytesBE 4 _),
      fromBytesBE_toBytesBE _ _ hv]

theorem read_data_len (s : SerializedMessage) (hv : s.data_len < 256 ^ 8) :
    readBE s.to_bytes 4 8 = s.data_len := by
  have h : readBE s.to_bytes (4 + 0) 8 = s.data_len := by
    simp only [SerializedMessage.to_bytes]
    rw [readBE_skip _ _ _ _ _ (length_toBytesBE 4 _),
      readBE_head _ _ _ (length_toBytesBE 8 _),
      fromBytesBE_toBytesBE _ _ hv]
  simpa using h

theorem read_header_version (s : SerializedMessage) (hv : s.header_version < 256 ^ 2) :
    readBE s.to_bytes 12 2 = s.header_version := by
  have h : readBE s.to_bytes (4 + (8 + 0)) 2 = s.header_version := by
    simp only [SerializedMessage.to_bytes]
    rw [readBE_skip _ _ _ _ _ (length_toBytesBE 4 _),
      readBE_skip _ _ _ _ _ (length_toBytesBE 8 _),
      readBE_head _ _ _ (length_toBytesBE 2 _),
      fromBytesBE_toBytesBE _ _ hv]
  simpa using h

theorem read_msg_name_id (s : SerializedMessage) (hv : s.msg_name_id < 256 ^ 2) :
    readBE s.to_bytes 14 2 = s.msg_name_id := by
  have h : readBE s.to_bytes (4 + (8 + (2 + 0))) 2 = s.msg_name_id := by
    simp only [SerializedMessage.to_bytes]
    rw [readBE_skip _ _ _ _ _ (length_toBytesBE 4 _),
      readBE_skip _ _ _ _ _ (length_toBytesBE 8 _),
      readBE_skip _ _ _ _ _ (length_toBytesBE 2 _),
      readBE_head _ _ _ (length_toBytesBE 2 _),
      fromBytesBE_toBytesBE _ _ hv]
  simpa using h

theorem read_msg_id (s : SerializedMessage) (hv : s.msg_id < 256 ^ 16) :
    readBE s.to_bytes 16 16 = s.msg_id := by
  have h : readBE s.to_bytes (4 + (8 + (2 + (2 + 0)))) 16 = s.msg_id := by
    simp only [SerializedMessage.to_bytes]
    rw [readBE_skip _ _ _ _ _ (length_toBytesBE 4 _),
      readBE_skip _ _ _ _ _ (length_toBytesBE 8 _),
      readBE_skip _ _ _ _ _ (length_toBytesBE 2 _),
      readBE_skip _ _ _ _ _ (length_toBytesBE 2 _),
      readBE_head _ _ _ (length_toBytesBE 16 _),
      fromBytesBE_toBytesBE _ _ hv]
  simpa using h

theorem read_sent_from_flags (s : SerializedMessage) (hv : s.sent_from_flags < 256 ^ 1) :
    readBE s.to_bytes 32 1 = s.sent_from_flags := by
  have h : readBE s.to_bytes (4 + (8 + (2 + (2 + (16 + 0))))) 1 = s.sent_from_flags := by
    simp only [SerializedMessage.to_bytes]
    rw [readBE_skip _ _ _ _ _ (length_toBytesBE 4 _),
      readBE_skip _ _ _ _ _ (length_toBytesBE 8 _),
      readBE_skip _ _ _ _ _ (length_toBytesBE 2 _),
      readBE_skip _ _ _ _ _ (length_toBytesBE 2 _),
      readBE_skip _ _ _ _ _ (length_toBytesBE 16 _),
      readBE_head _ _ _ (length_toBytesBE 1 _),
      fromBytesBE_toBytesBE _ _ hv]
  simpa using h

theorem read_sent_from_worker_id (s : SerializedMessage) (hv : s.sent_from_worker_id < 256 ^ 16) :
    readBE s.to_bytes 33 16 = s.sent_from_worker_id := by
  have h : readBE s.to_bytes (4 + (8 + (2 + (2 + (16 + (1 + 0)))))) 16 = s.sent_from_worker_id := by
    simp only [SerializedMessage.to_bytes]
    rw [readBE_skip _ _ _ _ _ (length_toBytesBE 4 _),
      readBE_skip _ _ _ _ _ (length_toBytesBE 8 _),
      readBE_skip _ _ _ _ _ (length_toBytesBE 2 _),
      readBE_skip _ _ _ _ _ (length_toBytesBE 2 _),
      readBE_skip _ _ _ _ _ (length_toBytesBE 16 _),
      readBE_skip _ _ _ _ _ (length_toBytesBE 1 _),
      readBE_head _ _ _ (length_toBytesBE 16 _),
      fromBytesBE_toBytesBE _ _ hv]
  simpa using h

theorem read_sent_from_pipeline_id (s : SerializedMessage) (hv : s.sent_from_pipeline_id < 256 ^ 16) :
    readBE s.to_bytes 49 16 = s.sent_from_pipeline_id := by
  have h : readBE s.to_bytes (4 + (8 + (2 + (2 + (16 + (1 + (16 + 0))))))) 16 = s.sent_from_pipeline_id := by
    simp only [SerializedMessage.to_bytes]
    rw [readBE_skip _ _ _ _ _ (length_toBytesBE 4 _),
      readBE_skip _ _ _ _ _ (length_toBytesBE 8 _),
      readBE_skip _ _ _ _ _ (length_toBytesBE 2 _),
      readBE_skip _ _ _ _ _ (length_toBytesBE 2 _),
      readBE_skip _ _ _ _ _ (length_toBytesBE 16 _),
      readBE_skip _ _ _ _ _ (length_toBytesBE 1 _),
      readBE_skip _ _ _ _ _ (length_toBytesBE 16 _),
      readBE_head _ _ _ (length_toBytesBE 16 _),
      fromBytesBE_toBytesBE _ _ hv]
  simpa using h

theorem read_sent_from_operation_id (s : SerializedMessage) (hv : s.sent_from_operation_id < 256 ^ 16) :
    readBE s.to_bytes 65 16 = s.sent_from_operation_id := by
  have h : readBE s.to_bytes (4 + (8 + (2 + (2 + (16 + (1 + (16 + (16 + 0)))))))) 16 = s.sent_from_operation_id := by
    simp only [SerializedMessage.to_bytes]
    rw [readBE_skip _ _ _ _ _ (length_toBytesBE 4 _),
      readBE_skip _ _ _ _ _ (length_toBytesBE 8 _),
      readBE_skip _ _ _ _ _ (length_toBytesBE 2 _),
      readBE_skip _ _ _ _ _ (length_toBytesBE 2 _),
      readBE_skip _ _ _ _ _ (length_toBytesBE 16 _),
      readBE_skip _ _ _ _ _ (length_toBytesBE 1 _),
      readBE_skip _ _ _ _ _ (length_toBytesBE 16 _),
      readBE_skip _ _ _ _ _ (length_toBytesBE 16 _),
      readBE_head _ _ _ (length_toBytesBE 16 _),
      fromBytesBE_toBytesBE _ _ hv]
  simpa using h

theorem read_sent_from_connection_id (s : SerializedMessage) (hv : s.sent_from_connection_id < 256 ^ 16) :
    readBE s.to_bytes 81 16 = s.sent_from_connection_id := by
  have h : readBE s.to_bytes (4 + (8 + (2 + (2 + (16 + (1 + (16 + (16 + (16 + 0))))))))) 16 = s.sent_from_connection_id := by
    simp only [SerializedMessage.to_bytes]
    rw [readBE_skip _ _ _ _ _ (length_toBytesBE 4 _),
      readBE_skip _ _ _ _ _ (length_toBytesBE 8 _),
      readBE_skip _ _ _ _ _ (length_toBytesBE 2 _),
      readBE_skip _ _ _ _ _ (length_toBytesBE 2 _),
      readBE_skip _ _ _ _ _ (length_toBytesBE 16 _),
      readBE_skip _ _ _ _ _ (length_toBytesBE 1 _),
      readBE_skip _ _ _ _ _ (length_toBytesBE 16 _),
      readBE_skip _ _ _ _ _ (length_toBytesBE 16 _),
      readBE_skip _ _ _ _ _ (length_toBytesBE 16 _),
      readBE_head _ _ _ (length_toBytesBE 16 _),
      fromBytesBE_toBytesBE _ _ hv]
  simpa using h

theorem read_routing_flags (s : SerializedMessage) (hv : s.routing_flags < 256 ^ 1) :
    readBE s.to_bytes 97 1 = s.routing_flags := by
  have h : readBE s.to_bytes (4 + (8 + (2 + (2 + (16 + (1 + (16 + (16 + (16 + (16 + 0)))))))))) 1 = s.routing_flags := by
    simp only [SerializedMessage.to_bytes]
    rw [readBE_skip _ _ _ _ _ (length_toBytesBE 4 _),
      readBE_skip _ _ _ _ _ (length_toBytesBE 8 _),
      readBE_skip _ _ _ _ _ (length_toBytesBE 2 _),
      readBE_skip _ _ _ _ _ (length_toBytesBE 2 _),
      readBE_skip _ _ _ _ _ (length_toBytesBE 16 _),
      readBE_skip _ _ _ _ _ (length_toBytesBE 1 _),
      readBE_skip _ _ _ _ _ (length_toBytesBE 16 _),
      readBE_skip _ _ _ _ _ (length_toBytesBE 16 _),
      readBE_skip _ _ _ _ _ (length_toBytesBE 16 _),
      readBE_skip _ _ _ _ _ (length_toBytesBE 16 _),
      readBE_head _ _ _ (length_toBytesBE 1 _),
      fromBytesBE_toBytesBE _ _ hv]
  simpa using h

theorem read_route_to_worker_id (s : SerializedMessage) (hv : s.route_to_worker_id < 256 ^ 16) :
    readBE s.to_bytes 98 16 = s.route_to_worker_id := by
  have h : readBE s.to_bytes (4 + (8 + (2 + (2 + (16 + (1 + (16 + (16 + (16 + (16 + (1 + 0))))))))))) 16 = s.route_to_worker_id := by
    simp only [SerializedMessage.to_bytes]
    rw [readBE_skip _ _ _ _ _ (length_toBytesBE 4 _),
      readBE_skip _ _ _ _ _ (length_toBytesBE 8 _),
      readBE_skip _ _ _ _ _ (length_toBytesBE 2 _),
      readBE_skip _ _ _ _ _ (length_toBytesBE 2 _),
      readBE_skip _ _ _ _ _ (length_toBytesBE 16 _),
      readBE_skip _ _ _ _ _ (length_toBytesBE 1 _),
      readBE_skip _ _ _ _ _ (length_toBytesBE 16 _),
      readBE_skip _ _ _ _ _ (length_toBytesBE 16 _),
      readBE_skip _ _ _ _ _ (length_toBytesBE 16 _),
      readBE_skip _ _ _ _ _ (length_toBytesBE 16 _),
      readBE_skip _ _ _ _ _ (length_toBytesBE 1 _),
      readBE_head _ _ _ (length_toBytesBE 16 _),
      fromBytesBE_toBytesBE _ _ hv]
  simpa using h

theorem read_route_to_operation_id (s : SerializedMessage) (hv : s.route_to_operation_id < 256 ^ 16) :
    readBE s.to_bytes 114 16 = s.route_to_operation_id := by
  have h : readBE s.to_bytes (4 + (8 + (2 + (2 + (16 + (1 + (16 + (16 + (16 + (16 + (1 + (16 + 0)))))))))))) 16 = s.route_to_operation_id := by
    simp only [SerializedMessage.to_bytes]
    rw [readBE_skip _ _ _ _ _ (length_toBytesBE 4 _),
      readBE_skip _ _ _ _ _ (length_toBytesBE 8 _),
      readBE_skip _ _ _ _ _ (length_toBytesBE 2 _),
      readBE_skip _ _ _ _ _ (length_toBytesBE 2 _),
      readBE_skip _ _ _ _ _ (length_toBytesBE 16 _),
      readBE_skip _ _ _ _ _ (length_toBytesBE 1 _),
      readBE_skip _ _ _ _ _ (length_toBytesBE 16 _),
      readBE_skip _ _ _ _ _ (length_toBytesBE 16 _),
      readBE_skip _ _ _ _ _ (length_toBytesBE 16 _),
      readBE_skip _ _ _ _ _ (length_toBytesBE 16 _),
      readBE_skip _ _ _ _ _ (length_toBytesBE 1 _),
      readBE_skip _ _ _ _ _ (length_toBytesBE 16 _),
      readBE_head _ _ _ (length_toBytesBE 16 _),
      fromBytesBE_toBytesBE _ _ hv]
  simpa using h

theorem read_route_to_connection_id (s : SerializedMessage) (hv : s.route_to_connection_id < 256 ^ 16) :
    readBE s.to_bytes 130 16 = s.route_to_connection_id := by
  have h : readBE s.to_bytes (4 + (8 + (2 + (2 + (16 + (1 + (16 + (16 + (16 + (16 + (1 + (16 + (16 + 0))))))))))))) 16 = s.route_to_connection_id := by
    simp only [SerializedMessage.to_bytes]
    rw [readBE_skip _ _ _ _ _ (length_toBytesBE 4 _),
      readBE_skip _ _ _ _ _ (length_toBytesBE 8 _),
      readBE_skip _ _ _ _ _ (length_toBytesBE 2 _),
      readBE_skip _ _ _ _ _ (length_toBytesBE 2 _),
      readBE_skip _ _ _ _ _ (length_toBytesBE 16 _),
      readBE_skip _ _ _ _ _ (length_toBytesBE 1 _),
      readBE_skip _ _ _ _ _ (length_toBytesBE 16 _),
      readBE_skip _ _ _ _ _ (length_toBytesBE 16 _),
      readBE_skip _ _ _ _ _ (length_toBytesBE 16 _),
      readBE_skip _ _ _ _ _ (length_toBytesBE 16 _),
      readBE_skip _ _ _ _ _ (length_toBytesBE 1 _),
      readBE_skip _ _ _ _ _ (length_toBytesBE 16 _),
      readBE_skip _ _ _ _ _ (length_toBytesBE 16 _),
      readBE_head _ _ _ (length_toBytesBE 16 _),
      fromBytesBE_toBytesBE _ _ hv]
  simpa using h

theorem read_msg_data (s : SerializedMessage) :
    s.to_bytes.drop 146 = s.msg_data := by
  have h : s.to_bytes.drop (4 + (8 + (2 + (2 + (16 + (1 + (16 + (16 + (16 + (16 + (1 + (16 + (16 + (16 + 0)))))))))))))) = s.msg_data := by
    simp only [SerializedMessage.to_bytes]
    rw [drop_skip _ _ _ _ (length_toBytesBE 4 _),
      drop_skip _ _ _ _ (length_toBytesBE 8 _),
      drop_skip _ _ _ _ (length_toBytesBE 2 _),
      drop_skip _ _ _ _ (length_toBytesBE 2 _),
      drop_skip _ _ _ _ (length_toBytesBE 16 _),
      drop_skip _ _ _ _ (length_toBytesBE 1 _),
      drop_skip _ _ _ _ (length_toBytesBE 16 _),
      drop_skip _ _ _ _ (length_toBytesBE 16 _),
      drop_skip _ _ _ _ (length_toBytesBE 16 _),
      drop_skip _ _ _ _ (length_toBytesBE 16 _),
      drop_skip _ _ _ _ (length_toBytesBE 1 _),
      drop_skip _ _ _ _ (length_toBytesBE 16 _),
      drop_skip _ _ _ _ (length_toBytesBE 16 _),
      drop_skip _ _ _ _ (length_toBytesBE 16 _)]
    simp
  simpa using h

set_option maxHeartbeats 2000000 in
theorem parse_to_bytes (s : SerializedMessage) (h : s.wf) :
    SerializedMessage.parse s.to_bytes = .ok s [] := by
  obtain ⟨hhl, hver, hdl, hdl8, hnm, hmid, hsf, hsw, hsp, hso, hsc, hrf, hrw, hro, hrc⟩ := h
  have hlen := length_to_bytes s
  have htake4 : fromBytesBE (s.to_bytes.take 4) = s.header_len := by
    simp only [SerializedMessage.to_bytes]
    rw [List.take_left' (length_toBytesBE 4 _)]
    exact fromBytesBE_toBytesBE _ _ (by rw [hhl]; norm_num)
  have hdrop4 : fromBytesBE ((s.to_bytes.drop 4).take 8) = s.data_len := by
    simp only [SerializedMessage.to_bytes]
    rw [List.drop_left' (length_toBytesBE 4 _), List.take_left' (length_toBytesBE 8 _)]
    exact fromBytesBE_toBytesBE _ _ hdl8
  have hrest : s.to_bytes.drop (4 + s.header_len + s.data_len) = [] := by
    apply List.drop_of_length_le
    omega
  simp only [SerializedMessage.parse, htake4, hdrop4]
  rw [if_neg (by omega), if_neg (by omega), if_neg (by omega), if_neg (by omega), hrest]
  rw [read_header_len s (by rw [hhl]; norm_num), read_data_len s hdl8,
    read_header_version s hver, read_msg_name_id s hnm, read_msg_id s hmid,
    read_sent_from_flags s hsf, read_sent_from_worker_id s hsw,
    read_sent_from_pipeline_id s hsp, read_sent_from_operation_id s hso,
    read_sent_from_connection_id s hsc, read_routing_flags s hrf,
    read_route_to_worker_id s hrw, read_route_to_operation_id s hro,
    read_route_to_connection_id s hrc, read_msg_data s]

theorem new_wf (m : Message) (h : m.wf) : (SerializedMessage.new m).wf := by
  obtain ⟨h1, h2, h3, h4, h5, h6, h7, h8, h9, h10, h11⟩ := h
  unfold SerializedMessage.wf SerializedMessage.new
  exact ⟨headerLen_eq, by norm_num, rfl, h10, h1, h2, flags4_lt _ _ _ _, h3, h4, h5, h6,
    flags3_lt _ _ _, h7, h8, h9⟩

/-- C1.  Codec round-trip: encoding a message with `SerializedMessage::new`
followed by `to_bytes`, then decoding with `SerializedMessage::parse` and
`Message::build_from_serialized_message` (the registered parser rebuilding
the payload from `msg_data`), returns exactly the original message for
every combination of present and absent optional ids; the transient stream
ids are `None` on both sides, and the parse consumes the whole frame. -/
theorem c1_codec_roundtrip (m : Message) (h : m.wf)
    (hin : m.inbound_stream_id = none) (hout : m.outbound_stream_id = none) :
    SerializedMessage.parse (SerializedMessage.new m).to_bytes =
      .ok (SerializedMessage.new m) [] ∧
    Message.build_from_serialized_message (SerializedMessage.new m) = m := by
  refine ⟨parse_to_bytes _ (new_wf m h), ?_⟩
  obtain ⟨nid, mid, pay, w1, p1, o1, q1, r1, r2, r3, inb, outb⟩ := m
  change inb = none at hin
  change outb = none at hout
  subst hin hout
  simp only [Message.build_from_serialized_message, SerializedMessage.new,
    flags4_and_1, flags4_and_2, flags4_and_4, flags4_and_8,
    flags3_and_1, flags3_and_2, flags3_and_4, if_isSome_getD]

/-- A sample message exercising a mixed flag pattern. -/
def mEx : Message where
  msg_name_id := 0
  msg_id := 7
  msg := [10, 20]
  sent_from_worker_id := some 3
  sent_from_pipeline_id := none
  sent_from_operation_id := some 4
  sent_from_connection_id := none
  route_to_worker_id := none
  route_to_operation_id := some 9
  route_to_connection_id := none
  inbound_stream_id := none
  outbound_stream_id := none

theorem c1_codec_roundtrip_witness :
    mEx.wf ∧
    (SerializedMessage.parse (SerializedMessage.new mEx).to_bytes =
        .ok (SerializedMessage.new mEx) [] ∧
      Message.build_from_serialized_message (SerializedMessage.new mEx) = mEx) :=
  ⟨by decide, c1_codec_roundtrip mEx (by decide) rfl rfl⟩

/-- The message used to exhibit the off-by-four in `check`. -/
def mC3 : Message where
  msg_name_id := 0
  msg_id := 1
  msg := [1, 2, 3, 4, 5]
  sent_from_worker_id := none
  sent_from_pipeline_id := none
  sent_from_operation_id := none
  sent_from_connection_id := none
  route_to_worker_id := none
  route_to_operation_id := none
  route_to_connection_id := none
  inbound_stream_id := none
  outbound_stream_id := none

/-- The wire frame of `mC3` truncated by its last four bytes: it holds
`headerLen + data_len = 147` bytes, four fewer than the full frame
`4 + headerLen + data_len = 151`. -/
def c3buf : List Nat := ((SerializedMessage.new mC3).to_bytes).take 147

set_option maxRecDepth 40000 in
/-- C3.  `check` compares the buffer length against
`header_len + data_len`, forgetting the 4-byte length prefix that
`parse` later includes in `data.advance(4 + header_len + data_len)`.  On a
buffer holding a frame truncated by four bytes, `parse` therefore does not
return `Incomplete`: it reads a short payload and panics advancing past
the end of the buffer. -/
theorem c3_truncated_frame_panics :
    c3buf.length < 4 + headerLen + mC3.msg.length ∧
    SerializedMessage.check c3buf = true ∧
    SerializedMessage.parse c3buf = .panics := by decide

end Messages

namespace OperatorHandler

/-- Modelled from the spec: `planner::OperatorCompute` is declared in the
planner's `physical_planner.rs`, which is absent from the sources; its
three fields are fixed by every use in `operator_handler_state.rs` and
`query_handler_state.rs` and by §3 of the specification ("declared compute
cost `{memory_mib, cpu_thousandths}`, and declared instance count"). -/
structure OperatorCompute where
  instances : Nat
  memory_in_mib : Nat
  cpu_in_thousandths : Nat
  deriving Repr, DecidableEq

/-- `TotalOperatorCompute` from `operator_handler_state.rs`; all three
components are `usize`. -/
@[ext]
structure TotalOperatorCompute where
  instances : Nat
  memory_in_mib : Nat
  cpu_in_thousandths : Nat
  deriving Repr, DecidableEq

/-- `TotalOperatorCompute::any_greater_than`. -/
def TotalOperatorCompute.any_greater_than (t c : TotalOperatorCompute) : Bool :=
  if t.instances > c.instances then true
  else if t.memory_in_mib > c.memory_in_mib then true
  else if t.cpu_in_thousandths > c.cpu_in_thousandths then true
  else false

/-- `TotalOperatorCompute::add`: componentwise `+=`. -/
def TotalOperatorCompute.add (t c : TotalOperatorCompute) : TotalOperatorCompute where
  instances := t.instances + c.instances
  memory_in_mib := t.memory_in_mib + c.memory_in_mib
  cpu_in_thousandths := t.cpu_in_thousandths + c.cpu_in_thousandths

/-- `TotalOperatorCompute::subtract`: each component becomes
`self - c` when `self > c` and `0` otherwise (saturating subtraction). -/
def TotalOperatorCompute.subtract (t c : TotalOperatorCompute) : TotalOperatorCompute where
  instances := if t.instances > c.instances then t.instances - c.instances else 0
  memory_in_mib := if t.memory_in_mib > c.memory_in_mib then t.memory_in_mib - c.memory_in_mib else 0
  cpu_in_thousandths :=
    if t.cpu_in_thousandths > c.cpu_in_thousandths then t.cpu_in_thousandths - c.cpu_in_thousandths
    else 0

/-- `TotalOperatorCompute::subtract_single_operator_compute`: decrement the
instance count by one and saturating-subtract the declared memory and cpu. -/
def TotalOperatorCompute.subtract_single_operator_compute (t : TotalOperatorCompute)
    (c : OperatorCompute) : TotalOperatorCompute where
  instances := if t.instances ≠ 0 then t.instances - 1 else 0
  memory_in_mib := if t.memory_in_mib > c.memory_in_mib then t.memory_in_mib - c.memory_in_mib else 0
  cpu_in_thousandths :=
    if t.cpu_in_thousandths > c.cpu_in_thousandths then t.cpu_in_thousandths - c.cpu_in_thousandths
    else 0

/-- `TotalOperatorCompute::add_single_operator_compute`, transcribed as
written in the source: `instances` and `memory_in_mib` are ASSIGNED from
the operand (`self.instances = c.instances`,
`self.memory_in_mib = c.memory_in_mib`) while only `cpu_in_thousandths`
accumulates with `+=`. -/
def TotalOperatorCompute.add_single_operator_compute (t : TotalOperatorCompute)
    (c : OperatorCompute) : TotalOperatorCompute where
  instances := c.instances
  memory_in_mib := c.memory_in_mib
  cpu_in_thousandths := t.cpu_in_thousandths + c.cpu_in_thousandths

/-- `TotalOperatorCompute::any_depleated`: some component is `<= 0`
(equivalently `= 0`, the components being `usize`). -/
def TotalOperatorCompute.any_depleated (t : TotalOperatorCompute) : Bool :=
  t.instances == 0 || t.memory_in_mib == 0 || t.cpu_in_thousandths == 0

/-- `planner::Operator`, restricted to the fields the handlers read
(`id` and `compute`; the remaining planner fields are never touched by the
code under study). -/
structure Operator where
  id : String
  compute : OperatorCompute
  deriving Repr, DecidableEq

/-- `Status` from `operator_handler_state.rs`. -/
inductive Status where
  | queued
  | running
  | complete
  | error (msg : String)
  deriving Repr, DecidableEq

/-- `OperatorInstance` from `operator_handler_state.rs`. -/
structure OperatorInstance where
  id : Nat
  status : Status
  query_id : Nat
  pipeline_id : String
  operator : Operator
  deriving Repr, DecidableEq

/-- `OperatorHandlerState::total_operator_compute`: fold
`add_single_operator_compute` over the running instances, forcing
`op_com.instances = 1` for each. -/
def total_operator_compute (operator_instances : List OperatorInstance) : TotalOperatorCompute :=
  operator_instances.foldl
    (fun total op => total.add_single_operator_compute { op.operator.compute with instances := 1 })
    { instances := 0, memory_in_mib := 0, cpu_in_thousandths := 0 }

/-- Two running instances with distinct declared compute. -/
def c6ops : List OperatorInstance :=
  [ { id := 1, status := .running, query_id := 9, pipeline_id := "p0",
      operator := { id := "read", compute := { instances := 1, memory_in_mib := 10, cpu_in_thousandths := 5 } } },
    { id := 2, status := .running, query_id := 9, pipeline_id := "p0",
      operator := { id := "exch", compute := { instances := 1, memory_in_mib := 20, cpu_in_thousandths := 7 } } } ]

/-- C6.  `add_single_operator_compute` assigns `instances` and
`memory_in_mib` from the operand instead of adding them (only the cpu
component accumulates), so `total_operator_compute` over two running
instances with memory 10 and 20 and cpu 5 and 7 returns
`{1, 20, 12}` instead of the componentwise sum `{2, 30, 12}`; a single
add of `{1, 10, 5}` onto `{5, 100, 100}` likewise yields `{1, 10, 105}`
rather than `{6, 110, 105}`. -/
theorem c6_add_single_assigns :
    total_operator_compute c6ops =
      { instances := 1, memory_in_mib := 20, cpu_in_thousandths := 12 } ∧
    total_operator_compute c6ops ≠
      { instances := 2, memory_in_mib := 30, cpu_in_thousandths := 12 } ∧
    TotalOperatorCompute.add_single_operator_compute
        { instances := 5, memory_in_mib := 100, cpu_in_thousandths := 100 }
        { instances := 1, memory_in_mib := 10, cpu_in_thousandths := 5 } =
      { instances := 1, memory_in_mib := 10, cpu_in_thousandths := 105 } := by
  decide

end OperatorHandler

namespace QueryState

open OperatorHandler (OperatorCompute TotalOperatorCompute Operator)

/-- `Status` from `query_handler_state.rs`. -/
inductive Status where
  | queued
  | running
  | complete
  | error (msg : String)
  deriving Repr, DecidableEq

/-- `Status::terminal`. -/
def Status.terminal : Status → Bool
  | .complete => true
  | .error _ => true
  | _ => false

/-- An operator instance as addressed by
`claim_operator_instances_up_to_compute_available` (`id` and mutable
`status`). -/
structure OperatorInstance where
  id : Nat
  status : Status
  deriving Repr, DecidableEq

/-- The grouped form of the per-query instance catalog.
`query_handler_state.rs` declares a flat `operator_instances` vector, but
`claim_operator_instances_up_to_compute_available`,
`find_operator_instance` and their siblings all address each element as a
group carrying `operator` and `instances` (the `OperatorInstanceGroup`
shape that §9 of the spec singles out as the form to implement), so the
grouped shape is what the claim pass operates on. -/
structure OperatorInstanceGroup where
  operator : Operator
  instances : List OperatorInstance
  deriving Repr, DecidableEq

/-- `Query` from `query_handler_state.rs` (the physical plan is never read
by the claim pass and is omitted). -/
structure Query where
  id : Nat
  query : String
  status : Status
  operator_instances : List OperatorInstanceGroup
  deriving Repr, DecidableEq

/-- The innermost loop of
`claim_operator_instances_up_to_compute_available`: walk one group's
instances, skipping running or terminal instances and instances whose
subtraction would deplete some component, otherwise setting the instance
to `Running`, subtracting the group's declared compute and recording the
claim.  Returns the remaining compute, the updated instance list and the
claims as `(instance id, declared compute)` pairs. -/
def claimInstances (gc : OperatorCompute) :
    TotalOperatorCompute → List OperatorInstance →
      TotalOperatorCompute × List OperatorInstance × List (Nat × OperatorCompute)
  | c, [] => (c, [], [])
  | c, i :: is =>
    if i.status = .running ∨ i.status.terminal then
      let r := claimInstances gc c is
      (r.1, i :: r.2.1, r.2.2)
    else if (c.subtract_single_operator_compute gc).any_depleated then
      let r := claimInstances gc c is
      (r.1, i :: r.2.1, r.2.2)
    else
      let r := claimInstances gc (c.subtract_single_operator_compute gc) is
      (r.1, { i with status := .running } :: r.2.1, (i.id, gc) :: r.2.2)

/-- The middle loop: per group, skip the whole group when subtracting its
operator's compute from the remaining capacity would deplete some
component, else claim from its instances. -/
def claimGroups :
    TotalOperatorCompute → List OperatorInstanceGroup →
      TotalOperatorCompute × List OperatorInstanceGroup × List (Nat × OperatorCompute)
  | c, [] => (c, [], [])
  | c, g :: gs =>
    if (c.subtract_single_operator_compute g.operator.compute).any_depleated then
      let r := claimGroups c gs
      (r.1, g :: r.2.1, r.2.2)
    else
      let ri := claimInstances g.operator.compute c g.instances
      let r := claimGroups ri.1 gs
      (r.1, { g with instances := ri.2.1 } :: r.2.1, ri.2.2 ++ r.2.2)

/-- The outer loop: per query, break out entirely once the remaining
compute is depleted, skip terminal queries, else claim from the query's
groups. -/
def claimQueries :
    TotalOperatorCompute → List Query →
      TotalOperatorCompute × List Query × List (Nat × OperatorCompute)
  | c, [] => (c, [], [])
  | c, q :: qs =>
    if c.any_depleated then (c, q :: qs, [])
    else if q.status.terminal then
      let r := claimQueries c qs
      (r.1, q :: r.2.1, r.2.2)
    else
      let rg := claimGroups c q.operator_instances
      let r := claimQueries rg.1 qs
      (r.1, { q with operator_instances := rg.2.1 } :: r.2.1, rg.2.2 ++ r.2.2)

/-- `QueryHandlerState::claim_operator_instances_up_to_compute_available`:
clone the advertised capacity and run the claim pass over the query list. -/
def claim_operator_instances_up_to_compute_available (available_compute : TotalOperatorCompute)
    (queries : List Query) :
    TotalOperatorCompute × List Query × List (Nat × OperatorCompute) :=
  claimQueries available_compute queries

/-- A single queued instance whose operator compute `{memory 100, cpu 100}`
exactly matches the advertised capacity `{1, 100, 100}`. -/
def c2qs : List Query :=
  [ { id := 1, query := "select 1", status := .queued,
      operator_instances :=
        [ { operator := { id := "op",
                          compute := { instances := 1, memory_in_mib := 100,
                                       cpu_in_thousandths := 100 } },
            instances := [ { id := 10, status := .queued } ] } ] } ]

/-- C2 (counterexample).  With advertised capacity `{1, 100, 100}` and one
queued instance whose operator declares `{memory 100, cpu 100}` — an exact
fit, the declared memory and cpu do not exceed what remains — the claim
pass claims nothing and the instance stays `Queued`, because the pass
skips any claim whose subtraction would leave a component at zero. -/
theorem c2_exact_fit_not_claimed :
    (claim_operator_instances_up_to_compute_available
        { instances := 1, memory_in_mib := 100, cpu_in_thousandths := 100 } c2qs).2.2 = [] ∧
    (claim_operator_instances_up_to_compute_available
        { instances := 1, memory_in_mib := 100, cpu_in_thousandths := 100 } c2qs).2.1 = c2qs ∧
    (100 ≤ 100 ∧ 100 ≤ 100 ∧ 1 ≤ 1) := by
  decide


/-- Componentwise total of a list of claims: number of claimed instances,
total declared memory, total declared cpu. -/
def claimedTotal (cl : List (Nat × OperatorCompute)) : TotalOperatorCompute where
  instances := cl.length
  memory_in_mib := (cl.map (fun e => e.2.memory_in_mib)).sum
  cpu_in_thousandths := (cl.map (fun e => e.2.cpu_in_thousandths)).sum

/-- How the claim pass may rewrite a single instance: untouched, or
`Queued` turned into `Running`. -/
def instRel (old new : OperatorInstance) : Prop :=
  new = old ∨ (old.status = .queued ∧ new = { old with status := .running })

/-- How the claim pass may rewrite one group: operator untouched,
instances rewritten pointwise by `instRel`. -/
def groupRel (old new : OperatorInstanceGroup) : Prop :=
  new.operator = old.operator ∧ List.Forall₂ instRel old.instances new.instances

/-- How the claim pass may rewrite one query: only instance statuses move. -/
def queryRel (old new : Query) : Prop :=
  new.id = old.id ∧ new.query = old.query ∧ new.status = old.status ∧
  List.Forall₂ groupRel old.operator_instances new.operator_instances

/-- Every instance id of the state, in claim-pass order. -/
def instanceIds (queries : List Query) : List Nat :=
  (queries.map (fun q =>
    (q.operator_instances.map (fun g => g.instances.map OperatorInstance.id)).flatten)).flatten

theorem add_zero_compute (t : TotalOperatorCompute) :
    t.add { instances := 0, memory_in_mib := 0, cpu_in_thousandths := 0 } = t := by
  apply OperatorHandler.TotalOperatorCompute.ext <;> simp [TotalOperatorCompute.add]

theorem add_assoc_compute (t a b : TotalOperatorCompute) :
    (t.add a).add b = t.add (a.add b) := by
  apply OperatorHandler.TotalOperatorCompute.ext <;>
    simp [TotalOperatorCompute.add] <;> omega

theorem add_comm_compute (a b : TotalOperatorCompute) :
    a.add b = b.add a := by
  apply OperatorHandler.TotalOperatorCompute.ext <;>
    simp [TotalOperatorCompute.add] <;> omega

theorem claimedTotal_nil :
    claimedTotal [] = { instances := 0, memory_in_mib := 0, cpu_in_thousandths := 0 } := by
  apply OperatorHandler.TotalOperatorCompute.ext <;> simp [claimedTotal]

theorem claimedTotal_cons (e : Nat × OperatorCompute) (cl : List (Nat × OperatorCompute)) :
    claimedTotal (e :: cl) =
      (claimedTotal cl).add
        { instances := 1, memory_in_mib := e.2.memory_in_mib,
          cpu_in_thousandths := e.2.cpu_in_thousandths } := by
  apply OperatorHandler.TotalOperatorCompute.ext <;>
    simp [claimedTotal, TotalOperatorCompute.add] <;> omega

theorem claimedTotal_append (a b : List (Nat × OperatorCompute)) :
    claimedTotal (a ++ b) = (claimedTotal a).add (claimedTotal b) := by
  apply OperatorHandler.TotalOperatorCompute.ext <;>
    simp [claimedTotal, TotalOperatorCompute.add]

/-- When no component is depleted after
`subtract_single_operator_compute`, the subtraction was exact in every
component. -/
theorem subtract_single_exact (c : TotalOperatorCompute) (gc : OperatorCompute)
    (h : (c.subtract_single_operator_compute gc).any_depleated = false) :
    c = (c.subtract_single_operator_compute gc).add
        { instances := 1, memory_in_mib := gc.memory_in_mib,
          cpu_in_thousandths := gc.cpu_in_thousandths } := by
  unfold TotalOperatorCompute.subtract_single_operator_compute
    TotalOperatorCompute.any_depleated at h
  simp only [Bool.or_eq_false_iff, beq_eq_false_iff_ne] at h
  obtain ⟨⟨hi, hm⟩, hc⟩ := h
  apply OperatorHandler.TotalOperatorCompute.ext <;>
    simp only [TotalOperatorCompute.add, TotalOperatorCompute.subtract_single_operator_compute] <;>
    split_ifs at * <;> omega

theorem status_not_skipped_queued (s : Status)
    (h : ¬(s = .running ∨ s.terminal)) : s = .queued := by
  cases s <;> simp [Status.terminal] at h ⊢

theorem claimInstances_spec (gc : OperatorCompute) (c : TotalOperatorCompute)
    (l : List OperatorInstance) :
    c = (claimInstances gc c l).1.add (claimedTotal (claimInstances gc c l).2.2) ∧
    List.Forall₂ instRel l (claimInstances gc c l).2.1 ∧
    List.Sublist ((claimInstances gc c l).2.2.map Prod.fst) (l.map OperatorInstance.id) ∧
    ∀ e ∈ (claimInstances gc c l).2.2, e.2 = gc := by
  induction l generalizing c with
  | nil =>
      refine ⟨?_, .nil, by simp [claimInstances], by simp [claimInstances]⟩
      simp only [claimInstances]
      rw [claimedTotal_nil, add_zero_compute]
  | cons i is ih =>
      by_cases h1 : i.status = .running ∨ i.status.terminal
      · obtain ⟨a1, a2, a3, a4⟩ := ih c
        simp only [claimInstances, if_pos h1]
        exact ⟨a1, .cons (Or.inl rfl) a2, a3.cons _, a4⟩
      · by_cases h2 : (c.subtract_single_operator_compute gc).any_depleated = true
        · obtain ⟨a1, a2, a3, a4⟩ := ih c
          simp only [claimInstances, if_neg h1, if_pos h2]
          exact ⟨a1, .cons (Or.inl rfl) a2, a3.cons _, a4⟩
        · obtain ⟨a1, a2, a3, a4⟩ := ih (c.subtract_single_operator_compute gc)
          simp only [claimInstances, if_neg h1, if_neg h2]
          have h2f : (c.subtract_single_operator_compute gc).any_depleated = false := by
            revert h2
            cases (c.subtract_single_operator_compute gc).any_depleated <;> simp
          refine ⟨?_, .cons (Or.inr ⟨status_not_skipped_queued _ h1, rfl⟩) a2,
            a3.cons₂ _, ?_⟩
          · rw [claimedTotal_cons, ← add_assoc_compute, ← a1]
            exact subtract_single_exact c gc h2f
          · intro e he
            rcases List.mem_cons.mp he with he | he
            · rw [he]
            · exact a4 e he

theorem claimGroups_spec (c : TotalOperatorCompute) (gs : List OperatorInstanceGroup) :
    c = (claimGroups c gs).1.add (claimedTotal (claimGroups c gs).2.2) ∧
    List.Forall₂ groupRel gs (claimGroups c gs).2.1 ∧
    List.Sublist ((claimGroups c gs).2.2.map Prod.fst)
      ((gs.map (fun g => g.instances.map OperatorInstance.id)).flatten) := by
  induction gs generalizing c with
  | nil =>
      refine ⟨?_, .nil, by simp [claimGroups]⟩
      simp only [claimGroups]
      rw [claimedTotal_nil, add_zero_compute]
  | cons g gs ih =>
      by_cases h1 : (c.subtract_single_operator_compute g.operator.compute).any_depleated = true
      · obtain ⟨a1, a2, a3⟩ := ih c
        simp only [claimGroups, if_pos h1, List.map_cons, List.flatten_cons]
        refine ⟨a1, .cons ⟨rfl, (List.forall₂_same).2 fun x _ => Or.inl rfl⟩ a2, ?_⟩
        exact a3.trans (List.sublist_append_right _ _)
      · obtain ⟨b1, b2, b3, _⟩ := claimInstances_spec g.operator.compute c g.instances
        obtain ⟨a1, a2, a3⟩ := ih (claimInstances g.operator.compute c g.instances).1
        simp only [claimGroups, if_neg h1, List.map_cons, List.flatten_cons]
        refine ⟨?_, .cons ⟨rfl, b2⟩ a2, ?_⟩
        · calc c = (claimInstances g.operator.compute c g.instances).1.add
                (claimedTotal (claimInstances g.operator.compute c g.instances).2.2) := b1
            _ = ((claimGroups (claimInstances g.operator.compute c g.instances).1 gs).1.add
                  (claimedTotal (claimGroups (claimInstances g.operator.compute c g.instances).1 gs).2.2)).add
                (claimedTotal (claimInstances g.operator.compute c g.instances).2.2) := by
                  rw [← a1]
            _ = _ := by
                  rw [add_assoc_compute, add_comm_compute
                    (claimedTotal (claimGroups (claimInstances g.operator.compute c g.instances).1 gs).2.2),
                    ← claimedTotal_append]
        · rw [List.map_append]
          exact b3.append a3

theorem claimQueries_spec (c : TotalOperatorCompute) (qs : List Query) :
    c = (claimQueries c qs).1.add (claimedTotal (claimQueries c qs).2.2) ∧
    List.Forall₂ queryRel qs (claimQueries c qs).2.1 ∧
    List.Sublist ((claimQueries c qs).2.2.map Prod.fst) (instanceIds qs) := by
  induction qs generalizing c with
  | nil =>
      refine ⟨?_, .nil, by simp [claimQueries, instanceIds]⟩
      simp only [claimQueries]
      rw [claimedTotal_nil, add_zero_compute]
  | cons q qs ih =>
      by_cases h0 : c.any_depleated = true
      · simp only [claimQueries, if_pos h0]
        refine ⟨by rw [claimedTotal_nil, add_zero_compute], ?_, List.nil_sublist _⟩
        refine .cons ⟨rfl, rfl, rfl, (List.forall₂_same).2 fun g _ =>
          ⟨rfl, (List.forall₂_same).2 fun x _ => Or.inl rfl⟩⟩
          ((List.forall₂_same).2 fun p _ =>
            ⟨rfl, rfl, rfl, (List.forall₂_same).2 fun g _ =>
              ⟨rfl, (List.forall₂_same).2 fun x _ => Or.inl rfl⟩⟩)
      · by_cases h1 : q.status.terminal = true
        · obtain ⟨a1, a2, a3⟩ := ih c
          simp only [claimQueries, if_neg h0, if_pos h1, instanceIds, List.map_cons, List.flatten_cons]
          refine ⟨a1, .cons ⟨rfl, rfl, rfl, (List.forall₂_same).2 fun g _ =>
            ⟨rfl, (List.forall₂_same).2 fun x _ => Or.inl rfl⟩⟩ a2, ?_⟩
          exact a3.trans (List.sublist_append_right _ _)
        · obtain ⟨b1, b2, b3⟩ := claimGroups_spec c q.operator_instances
          obtain ⟨a1, a2, a3⟩ := ih (claimGroups c q.operator_instances).1
          simp only [claimQueries, if_neg h0, if_neg h1, instanceIds, List.map_cons, List.flatten_cons]
          refine ⟨?_, .cons ⟨rfl, rfl, rfl, b2⟩ a2, ?_⟩
          · calc c = (claimGroups c q.operator_instances).1.add
                  (claimedTotal (claimGroups c q.operator_instances).2.2) := b1
              _ = ((claimQueries (claimGroups c q.operator_instances).1 qs).1.add
                    (claimedTotal (claimQueries (claimGroups c q.operator_instances).1 qs).2.2)).add
                  (claimedTotal (claimGroups c q.operator_instances).2.2) := by
                    rw [← a1]
              _ = _ := by
                    rw [add_assoc_compute, add_comm_compute
                      (claimedTotal (claimQueries (claimGroups c q.operator_instances).1 qs).2.2),
                      ← claimedTotal_append]
          · rw [List.map_append]
            exact b3.append a3

/-- The claim-or-skip rule at the head of a group's instance list: a
queued instance is claimed exactly when subtracting the group's declared
compute from the remaining capacity leaves every component strictly
positive; in particular an exact fit (a component hitting zero) is
skipped. -/
theorem claimInstances_head (gc : OperatorCompute) (c : TotalOperatorCompute)
    (i : OperatorInstance) (is : List OperatorInstance) (h : i.status = .queued) :
    (claimInstances gc c (i :: is)).2.1.head? =
      some (if (c.subtract_single_operator_compute gc).any_depleated then i
            else { i with status := .running }) := by
  have h1 : ¬(i.status = .running ∨ i.status.terminal) := by
    rw [h]
    simp [Status.terminal]
  by_cases h2 : (c.subtract_single_operator_compute gc).any_depleated = true
  · simp only [claimInstances, if_neg h1, if_pos h2]
    rfl
  · simp only [claimInstances, if_neg h1, if_neg h2]
    rfl

/-- C2 (amended).  The claim pass claims only queued instances and sets
each claimed instance to `Running`, leaving everything else unchanged; the
advertised capacity equals the final remaining capacity plus the
componentwise total of the claimed operators' declared compute (so the
claimed total never exceeds the capacity); the claimed ids form a sublist
of the state's instance ids (no instance is claimed twice); and a queued
instance at the front of a group's remaining instances is claimed iff
subtracting the operator's declared compute leaves every component
strictly positive — an exact fit that would leave a component at zero is
skipped, not claimed. -/
theorem c2_claim_pass_amended (available_compute : TotalOperatorCompute)
    (queries : List Query) :
    (available_compute =
      (claim_operator_instances_up_to_compute_available available_compute queries).1.add
        (claimedTotal
          (claim_operator_instances_up_to_compute_available available_compute queries).2.2)) ∧
    List.Forall₂ queryRel queries
      (claim_operator_instances_up_to_compute_available available_compute queries).2.1 ∧
    List.Sublist
      ((claim_operator_instances_up_to_compute_available available_compute queries).2.2.map
        Prod.fst)
      (instanceIds queries) ∧
    (∀ (gc : OperatorCompute) (c : TotalOperatorCompute) (i : OperatorInstance)
        (is : List OperatorInstance), i.status = .queued →
      (claimInstances gc c (i :: is)).2.1.head? =
        some (if (c.subtract_single_operator_compute gc).any_depleated then i
              else { i with status := .running })) := by
  obtain ⟨a1, a2, a3⟩ := claimQueries_spec available_compute queries
  exact ⟨a1, a2, a3, claimInstances_head⟩

theorem c2_claim_pass_amended_witness :
    ((({ instances := 2, memory_in_mib := 150, cpu_in_thousandths := 150 } :
        TotalOperatorCompute) =
      (claim_operator_instances_up_to_compute_available
          { instances := 2, memory_in_mib := 150, cpu_in_thousandths := 150 } c2qs).1.add
        (claimedTotal
          (claim_operator_instances_up_to_compute_available
            { instances := 2, memory_in_mib := 150, cpu_in_thousandths := 150 } c2qs).2.2)) ∧
    List.Forall₂ queryRel c2qs
      (claim_operator_instances_up_to_compute_available
        { instances := 2, memory_in_mib := 150, cpu_in_thousandths := 150 } c2qs).2.1 ∧
    List.Sublist
      ((claim_operator_instances_up_to_compute_available
          { instances := 2, memory_in_mib := 150, cpu_in_thousandths := 150 } c2qs).2.2.map
        Prod.fst)
      (instanceIds c2qs) ∧
    (∀ (gc : OperatorCompute) (c : TotalOperatorCompute) (i : OperatorInstance)
        (is : List OperatorInstance), i.status = .queued →
      (claimInstances gc c (i :: is)).2.1.head? =
        some (if (c.subtract_single_operator_compute gc).any_depleated then i
              else { i with status := .running }))) :=
  c2_claim_pass_amended
    { instances := 2, memory_in_mib := 150, cpu_in_thousandths := 150 } c2qs

end QueryState

namespace QueryData

/-- `QueryDataHandlerError` from `query_data_handler.rs`, together with an
`other` constructor standing for any non-handler error (parquet or
object-store failures) that the code only ever matches as `Some(_) | None`. -/
inductive QueryDataHandlerError where
  | queryFileDoesNotExist
  | rowGroupDoesNotExistInTheFile (row_group_idx : Nat) (file_idx : Nat)
  | other (msg : String)
  deriving Repr, DecidableEq

/-- `std::u64::MAX`, the sentinel meaning "last row group of the file" /
"last row of the row group". -/
def UMAX : Nat := 2 ^ 64 - 1

/-- The materialized result set of one query on the object store:
`rec_<file_idx>.parquet ↦ row-group row counts` (a row group is modelled
by its number of rows, which is all the paging logic reads). -/
def Store := Nat → Option (List Nat)

/-- `get_row_group_data`: stat the file (missing ⇒
`QueryFileDoesNotExist`), replace the `u64::MAX` sentinel by
`num_row_groups - 1`, and read the selected row group (out of range ⇒ the
stream yields nothing ⇒ `RowGroupDoesNotExistInTheFile`).  Returns the row
count of the selected group and the file's row-group count. -/
def get_row_group_data (store : Store) (file_idx file_row_group_idx : Nat) :
    Except QueryDataHandlerError (Nat × Nat) :=
  match store file_idx with
  | none => .error .queryFileDoesNotExist
  | some rgs =>
    let num_row_groups := rgs.length
    let idx := if file_row_group_idx = UMAX then num_row_groups - 1 else file_row_group_idx
    match rgs[idx]? with
    | some nrows => .ok (nrows, num_row_groups)
    | none => .error (.rowGroupDoesNotExistInTheFile idx file_idx)

/-- Outcome of the paging loop of `get_record_data`: the collected slice
lengths and offset blocks, the `(file_idx, row_group_idx)` reads issued to
the object store, or an error; `hang` stands for the loop not terminating
(the `continue` branches of the source do not advance the position). -/
inductive LoopOut where
  | ok (recs : List Nat) (rec_offsets : List (List (Nat × Nat × Nat)))
      (reads : List (Nat × Nat))
  | err (e : QueryDataHandlerError) (reads : List (Nat × Nat))
  | hang (reads : List (Nat × Nat))
  deriving Repr, DecidableEq

/-- The `loop` of `get_record_data`, with explicit fuel.  Each iteration
reads one row group, slices it according to the requested position,
`limit` and direction, and steps to the next (forward) or previous
(backward) row group, rolling across files; a missing file ends the loop,
any other read error aborts it. -/
def getRecordDataLoop (store : Store) (file_idx file_row_group_idx row_idx limit : Nat)
    (forward : Bool) :
    Nat → Nat → Nat → List Nat → List (List (Nat × Nat × Nat)) → Nat →
      List (Nat × Nat) → LoopOut
  | 0, _, _, _, _, _, reads => .hang reads
  | fuel + 1, cfi, crgi0, recs, offs, total, reads =>
    let reads1 := reads ++ [(cfi, crgi0)]
    match get_row_group_data store cfi crgi0 with
    | .error .queryFileDoesNotExist => .ok recs offs reads1
    | .error e => .err e reads1
    | .ok (nrows, num_row_groups) =>
      let crgi := if crgi0 = UMAX then num_row_groups - 1 else crgi0
      if nrows = 0 then
        getRecordDataLoop store file_idx file_row_group_idx row_idx limit forward
          fuel cfi crgi recs offs total reads1
      else
        let se : Nat × Nat :=
          if forward then
            let s := if cfi = file_idx ∧ crgi = file_row_group_idx then row_idx else 0
            (s, min (nrows - s) (limit - total))
          else
            let s :=
              if cfi = file_idx ∧ crgi = file_row_group_idx then
                if row_idx = UMAX then nrows else row_idx
              else nrows
            (s - min s (limit - total), min s (limit - total))
        if nrows ≤ se.1 then
          getRecordDataLoop store file_idx file_row_group_idx row_idx limit forward
            fuel cfi crgi recs offs total reads1
        else
          let offsets := (List.range se.2).map (fun i => (cfi, crgi, se.1 + i))
          let recs1 := recs ++ [se.2]
          let offs1 := offs ++ [offsets]
          let total1 := total + se.2
          if forward then
            let nxt := if crgi = num_row_groups - 1 then (cfi + 1, 0) else (cfi, crgi + 1)
            if limit ≤ total1 then .ok recs1 offs1 reads1
            else
              getRecordDataLoop store file_idx file_row_group_idx row_idx limit forward
                fuel nxt.1 nxt.2 recs1 offs1 total1 reads1
          else
            if cfi = 0 ∧ crgi = 0 then .ok recs1 offs1 reads1
            else
              let nxt := if 0 < cfi ∧ crgi = 0 then (cfi - 1, UMAX) else (cfi, crgi - 1)
              if limit ≤ total1 then .ok recs1 offs1 reads1
              else
                getRecordDataLoop store file_idx file_row_group_idx row_idx limit forward
                  fuel nxt.1 nxt.2 recs1 offs1 total1 reads1

/-- Result of `get_record_data`: `none` when no rows were collected,
otherwise the total row count of the concatenated batch and the flat
offset list (reversed block order when paging backward), plus the reads
issued. -/
inductive RecordDataResult where
  | ok (val : Option (Nat × List (Nat × Nat × Nat))) (reads : List (Nat × Nat))
  | err (e : QueryDataHandlerError) (reads : List (Nat × Nat))
  | hang (reads : List (Nat × Nat))
  deriving Repr, DecidableEq

/-- `get_record_data`: a zero limit returns `None` before touching the
store; otherwise run the paging loop from the requested position and
concatenate what it collected. -/
def get_record_data (store : Store) (file_idx file_row_group_idx row_idx limit : Nat)
    (forward : Bool) (fuel : Nat) : RecordDataResult :=
  if limit = 0 then .ok none []
  else
    match getRecordDataLoop store file_idx file_row_group_idx row_idx limit forward
        fuel file_idx file_row_group_idx [] [] 0 [] with
    | .ok recs offs reads =>
        .ok
          (if recs.isEmpty then none
           else some (recs.sum, ((if forward then offs else offs.reverse).flatten)))
          reads
    | .err e reads => .err e reads
    | .hang reads => .hang reads

/-- `GetQueryDataResp` (the reply variants sent by
`handle_get_query_data`). -/
inductive GetQueryDataResp where
  | record (rows : Nat) (record_offsets : List (Nat × Nat × Nat))
  | recordRowGroupNotFound
  | reachedEndOfFiles
  | error (e : QueryDataHandlerError)
  deriving Repr, DecidableEq

/-- `handle_get_query_data`: `Ok(Some(..))` ⇒ `Record`, `Ok(None)` ⇒
`RecordRowGroupNotFound`, `Err(QueryFileDoesNotExist)` ⇒
`ReachedEndOfFiles`, any other error ⇒ `Error`; `none` models the handler
never replying because `get_record_data` does not return. -/
def handle_get_query_data (store : Store) (file_idx file_row_group_idx row_idx limit : Nat)
    (forward : Bool) (fuel : Nat) : Option GetQueryDataResp :=
  match get_record_data store file_idx file_row_group_idx row_idx limit forward fuel with
  | .ok (some (rows, offs)) _ => some (.record rows offs)
  | .ok none _ => some .recordRowGroupNotFound
  | .err e _ =>
      some (if e = .queryFileDoesNotExist then .reachedEndOfFiles else .error e)
  | .hang _ => none

/-- An object store with no result files at all. -/
def storeEmpty : Store := fun _ => none

/-- An object store with a single file `rec_0.parquet` holding one
row group of three rows. -/
def storeOne : Store := fun i => if i = 0 then some [3] else none

/-- C5 (counterexample).  With no result files, a request for
`(file 0, row group 0, row 0, limit 1)` is answered
`RecordRowGroupNotFound`, not `ReachedEndOfFiles` (the loop swallows
`QueryFileDoesNotExist` and returns an empty collection); and with a file
holding a single row group, a request for the missing row group 1 is
answered `Error`, not `RecordRowGroupNotFound` (the
`RowGroupDoesNotExistInTheFile` error propagates to the generic error
arm). -/
theorem c5_error_mapping_counterexample :
    handle_get_query_data storeEmpty 0 0 0 1 true 1 = some .recordRowGroupNotFound ∧
    some GetQueryDataResp.recordRowGroupNotFound ≠ some GetQueryDataResp.reachedEndOfFiles ∧
    handle_get_query_data storeOne 0 1 0 1 true 1 =
      some (.error (.rowGroupDoesNotExistInTheFile 1 0)) ∧
    some (GetQueryDataResp.error (.rowGroupDoesNotExistInTheFile 1 0)) ≠
      some GetQueryDataResp.recordRowGroupNotFound := by
  decide

/-- C5 (amended).  For every store and request with a positive limit and
at least one loop step of fuel: if the first requested file does not exist
the handler replies `RecordRowGroupNotFound`, and if the requested row
group is missing inside a file that does exist (a non-sentinel index at or
past the file's row-group count) the handler replies
`Error(RowGroupDoesNotExistInTheFile ..)`; `ReachedEndOfFiles` is never
sent on either path. -/
theorem c5_error_mapping_amended (store : Store)
    (file_idx file_row_group_idx row_idx limit fuel : Nat) (forward : Bool)
    (hlim : limit ≠ 0) (hfuel : 0 < fuel) :
    (store file_idx = none →
      handle_get_query_data store file_idx file_row_group_idx row_idx limit forward fuel =
        some .recordRowGroupNotFound) ∧
    (∀ rgs, store file_idx = some rgs → file_row_group_idx ≠ UMAX →
      rgs.length ≤ file_row_group_idx →
      handle_get_query_data store file_idx file_row_group_idx row_idx limit forward fuel =
        some (.error (.rowGroupDoesNotExistInTheFile file_row_group_idx file_idx))) := by
  obtain ⟨f, rfl⟩ : ∃ f, fuel = f + 1 := ⟨fuel - 1, by omega⟩
  constructor
  · intro hmiss
    simp [handle_get_query_data, get_record_data, hlim, getRecordDataLoop,
      get_row_group_data, hmiss]
  · intro rgs hsome hne hlen
    have hidx : rgs[file_row_group_idx]? = none := List.getElem?_eq_none hlen
    simp [handle_get_query_data, get_record_data, hlim, getRecordDataLoop,
      get_row_group_data, hsome, hne, hidx]

theorem c5_error_mapping_amended_witness :
    ((storeEmpty 0 = none →
      handle_get_query_data storeEmpty 0 0 0 1 true 1 = some .recordRowGroupNotFound) ∧
    (∀ rgs, storeEmpty 0 = some rgs → (0 : Nat) ≠ UMAX → rgs.length ≤ 0 →
      handle_get_query_data storeEmpty 0 0 0 1 true 1 =
        some (.error (.rowGroupDoesNotExistInTheFile 0 0)))) :=
  c5_error_mapping_amended storeEmpty 0 0 0 1 1 true (by decide) (by decide)

/-- C9.  A zero-limit request returns `None` from `get_record_data`
without issuing a single object-store read, and the handler replies
`RecordRowGroupNotFound` — never a `Record`. -/
theorem c9_zero_limit_no_read (store : Store)
    (file_idx file_row_group_idx row_idx : Nat) (forward : Bool) (fuel : Nat) :
    get_record_data store file_idx file_row_group_idx row_idx 0 forward fuel = .ok none [] ∧
    handle_get_query_data store file_idx file_row_group_idx row_idx 0 forward fuel =
      some .recordRowGroupNotFound := by
  constructor
  · simp [get_record_data]
  · simp [handle_get_query_data, get_record_data]

end QueryData

namespace Router

/-- Modelled from the spec: the message kinds of §6
("Message kinds (enumerated)").  The enum itself lives in
`messages/message.rs`, which is absent from the sources; the router
matches on `Identify` and `RunQuery` and falls through for every other
kind. -/
inductive MessageName where
  | ping
  | identify
  | genericResponse
  | runQuery
  | runQueryResp
  | getQueryStatus
  | getQueryStatusResp
  | getQueryData
  | getQueryDataResp
  | operatorInstanceAvailable
  | operatorInstanceAssignment
  | queryHandlerRequests
  | operatorInstanceStatusChange
  | operatorOperatorInstanceStatusChange
  | operatorShutdown
  | exchangeRequests
  | exchangeOperatorStatusChange
  deriving Repr, DecidableEq

/-- `Identify { Worker { id } | Connection { id } }`, as matched by
`identify_external_subscriber`. -/
inductive Identify where
  | worker (id : Nat)
  | connection (id : Nat)
  deriving Repr, DecidableEq

/-- A message payload as the router sees it: only the `Identify` payload
is ever downcast; every other kind is routed by name alone. -/
inductive Payload where
  | identify (idn : Identify)
  | ping
  | genericResponse
  | runQuery
  | runQueryResp
  | getQueryStatus
  | getQueryStatusResp
  | getQueryData
  | getQueryDataResp
  | operatorInstanceAvailable
  | operatorInstanceAssignment
  | queryHandlerRequests
  | operatorInstanceStatusChange
  | operatorOperatorInstanceStatusChange
  | operatorShutdown
  | exchangeRequests
  | exchangeOperatorStatusChange
  deriving Repr, DecidableEq

/-- `msg.msg.msg_name()`: the kind is derived from the payload. -/
def Payload.msg_name : Payload → MessageName
  | .identify _ => .identify
  | .ping => .ping
  | .genericResponse => .genericResponse
  | .runQuery => .runQuery
  | .runQueryResp => .runQueryResp
  | .getQueryStatus => .getQueryStatus
  | .getQueryStatusResp => .getQueryStatusResp
  | .getQueryData => .getQueryData
  | .getQueryDataResp => .getQueryDataResp
  | .operatorInstanceAvailable => .operatorInstanceAvailable
  | .operatorInstanceAssignment => .operatorInstanceAssignment
  | .queryHandlerRequests => .queryHandlerRequests
  | .operatorInstanceStatusChange => .operatorInstanceStatusChange
  | .operatorOperatorInstanceStatusChange => .operatorOperatorInstanceStatusChange
  | .operatorShutdown => .operatorShutdown
  | .exchangeRequests => .exchangeRequests
  | .exchangeOperatorStatusChange => .exchangeOperatorStatusChange

/-- A message as the router reads it: payload, routing ids and the
transient stream ids. -/
structure RMessage where
  payload : Payload
  sent_from_worker_id : Option Nat
  route_to_worker_id : Option Nat
  route_to_operation_id : Option Nat
  route_to_connection_id : Option Nat
  inbound_stream_id : Option Nat
  outbound_stream_id : Option Nat
  deriving Repr, DecidableEq

/-- `ExternalSubscriber` from `message_subscriber.rs`; `PartialEq` derives
full structural equality, stream ids included. -/
inductive ExternalSubscriber where
  | inboundClientConnection (connection_id : Nat) (inbound_stream_id : Nat)
  | outboundWorker (worker_id : Nat) (outbound_stream_id : Nat)
  deriving Repr, DecidableEq

/-- `ExternalSubscriber::consumes_message`. -/
def ExternalSubscriber.consumes_message (s : ExternalSubscriber) (msg : RMessage) : Bool :=
  match s with
  | .inboundClientConnection connection_id _ =>
    match msg.route_to_connection_id with
    | some rid => connection_id == rid
    | _ => false
  | .outboundWorker worker_id _ =>
    match msg.route_to_worker_id, msg.route_to_connection_id with
    | some w_rid, none => worker_id == w_rid
    | none, none => true
    | _, _ => false

/-- An internal subscriber of the router (`InternalSubscriber`): its
channel and its `consumes_message` predicate. -/
structure InternalSubscriber where
  sender : Nat
  consumes : RMessage → Bool

/-- `MessageRouterState`: the two subscriber tables. -/
structure MessageRouterState where
  external_subscribers : List ExternalSubscriber
  internal_subscribers : List InternalSubscriber

/-- `MessageRouterState::add_external_subscriber`:
`retain(|item| *item != sub)` then `push(sub)`. -/
def add_external_subscriber (subs : List ExternalSubscriber) (sub : ExternalSubscriber) :
    List ExternalSubscriber :=
  (subs.filter (fun item => item ≠ sub)) ++ [sub]

/-- `MessageRouterError`. -/
inductive MessageRouterError where
  | timedOutWaitingForConnectionsToClose
  | routingRuleNotImplementedForMessage (name : MessageName)
  deriving Repr, DecidableEq

/-- What one routing step produced besides its `Ok(bool)`: the updated
state, the messages posted back to the connection pipe, and the internal
channels the message was delivered to. -/
structure RouteOutcome where
  routed : Bool
  state : MessageRouterState
  outbound : List RMessage
  delivered : List Nat

/-- `MessageRouterHandler::identify_external_subscriber`. -/
def identify_external_subscriber (worker_id : Nat) (state : MessageRouterState)
    (msg : RMessage) (idn : Identify) : RouteOutcome :=
  match idn with
  | .worker id =>
    match msg.inbound_stream_id with
    | some inbound_stream_id =>
      { routed := true, state, delivered := []
        outbound := [{ payload := .identify (.worker worker_id),
                       sent_from_worker_id := some worker_id,
                       route_to_worker_id := some id,
                       route_to_operation_id := none, route_to_connection_id := none,
                       inbound_stream_id := some inbound_stream_id,
                       outbound_stream_id := none }] }
    | none =>
      match msg.outbound_stream_id with
      | some outbound_stream_id =>
        { routed := true
          state := { state with
            external_subscribers :=
              add_external_subscriber state.external_subscribers
                (.outboundWorker id outbound_stream_id) }
          outbound := [], delivered := [] }
      | none => { routed := false, state, outbound := [], delivered := [] }
  | .connection id =>
    match msg.inbound_stream_id with
    | some inbound_stream_id =>
      { routed := true
        state := { state with
          external_subscribers :=
            add_external_subscriber state.external_subscribers
              (.inboundClientConnection id inbound_stream_id) }
        outbound := [{ payload := .identify (.worker worker_id),
                       sent_from_worker_id := some worker_id,
                       route_to_worker_id := none,
                       route_to_operation_id := none, route_to_connection_id := some id,
                       inbound_stream_id := some inbound_stream_id,
                       outbound_stream_id := none }]
        delivered := [] }
    | none => { routed := false, state, outbound := [], delivered := [] }

/-- `MessageRouterHandler::route_to_internal_subscriber`: drop messages
routed to another worker, else deliver to every internal subscriber whose
predicate consumes the message; `Ok(sent)` reports whether anyone did. -/
def route_to_internal_subscriber (worker_id : Nat) (state : MessageRouterState)
    (msg : RMessage) : RouteOutcome :=
  match msg.route_to_worker_id with
  | some route_to_worker_id =>
    if route_to_worker_id ≠ worker_id then
      { routed := false, state, outbound := [], delivered := [] }
    else
      let subs := state.internal_subscribers.filter (fun item => item.consumes msg)
      { routed := !subs.isEmpty, state, outbound := [],
        delivered := subs.map (fun s => s.sender) }
  | none =>
    let subs := state.internal_subscribers.filter (fun item => item.consumes msg)
    { routed := !subs.isEmpty, state, outbound := [],
      delivered := subs.map (fun s => s.sender) }

/-- `MessageRouterHandler::route_msg`: `Identify` and `RunQuery` have
routing rules; every other kind is
`Err(RoutingRuleNotImplementedForMessage)`. -/
def route_msg (worker_id : Nat) (state : MessageRouterState) (msg : RMessage) :
    Except MessageRouterError RouteOutcome :=
  match msg.payload with
  | .identify idn => .ok (identify_external_subscriber worker_id state msg idn)
  | .runQuery => .ok (route_to_internal_subscriber worker_id state msg)
  | p => .error (.routingRuleNotImplementedForMessage p.msg_name)

/-- One turn of `MessageRouterHandler::async_main`: `route_msg(&msg).await?`
propagates an error out of the loop (terminating the router); an
undelivered message is merely logged. -/
inductive StepResult where
  | continues (state : MessageRouterState) (outbound : List RMessage)
      (delivered : List Nat) (ignored : Bool)
  | terminates (e : MessageRouterError)

def async_main_step (worker_id : Nat) (state : MessageRouterState) (msg : RMessage) :
    StepResult :=
  match route_msg worker_id state msg with
  | .ok out => .continues out.state out.outbound out.delivered (!out.routed)
  | .error e => .terminates e

/-- The empty router state. -/
def state0 : MessageRouterState where
  external_subscribers := []
  internal_subscribers := []

/-- A `Ping` message with no routing ids. -/
def pingMsg : RMessage where
  payload := .ping
  sent_from_worker_id := none
  route_to_worker_id := none
  route_to_operation_id := none
  route_to_connection_id := none
  inbound_stream_id := some 5
  outbound_stream_id := none

/-- C4 (counterexample).  An inbound `Ping` — a kind with no routing
rule — makes `route_msg` return
`Err(RoutingRuleNotImplementedForMessage)`, and `async_main` propagates
that error with `?`, terminating the router loop; the message is not
merely logged and dropped. -/
theorem c4_unroutable_kind_terminates :
    route_msg 1 state0 pingMsg =
      .error (.routingRuleNotImplementedForMessage .ping) ∧
    async_main_step 1 state0 pingMsg =
      .terminates (.routingRuleNotImplementedForMessage .ping) := by
  constructor <;> rfl

/-- C4 (amended).  For `Identify` and `RunQuery` messages the routing
step never returns an error: an undeliverable one (no usable stream id,
or no consuming subscriber) yields `Ok(false)` and is logged and dropped,
and the loop continues.  For a message of any other kind `route_msg`
returns `RoutingRuleNotImplementedForMessage`, which `async_main`
propagates, terminating the router loop. -/
theorem c4_routing_error_amended (worker_id : Nat) (state : MessageRouterState)
    (msg : RMessage) :
    ((msg.payload.msg_name = .identify ∨ msg.payload.msg_name = .runQuery) →
      ∃ out, route_msg worker_id state msg = .ok out) ∧
    (msg.payload.msg_name ≠ .identify → msg.payload.msg_name ≠ .runQuery →
      route_msg worker_id state msg =
        .error (.routingRuleNotImplementedForMessage msg.payload.msg_name) ∧
      async_main_step worker_id state msg =
        .terminates (.routingRuleNotImplementedForMessage msg.payload.msg_name)) := by
  cases h : msg.payload <;>
    simp [route_msg, async_main_step, Payload.msg_name, h]

theorem c4_routing_error_amended_witness :
    (((pingMsg.payload.msg_name = .identify ∨ pingMsg.payload.msg_name = .runQuery) →
      ∃ out, route_msg 1 state0 pingMsg = .ok out) ∧
    (pingMsg.payload.msg_name ≠ .identify → pingMsg.payload.msg_name ≠ .runQuery →
      route_msg 1 state0 pingMsg =
        .error (.routingRuleNotImplementedForMessage pingMsg.payload.msg_name) ∧
      async_main_step 1 state0 pingMsg =
        .terminates (.routingRuleNotImplementedForMessage pingMsg.payload.msg_name))) :=
  c4_routing_error_amended 1 state0 pingMsg

/-- C7 (counterexample).  Two `add_external_subscriber` calls for the same
worker id but different outbound stream ids leave TWO `OutboundWorker`
entries for that worker: de-duplication compares whole values (stream id
included), not identities. -/
theorem c7_same_worker_two_streams :
    ([ExternalSubscriber.outboundWorker 1 10,
      ExternalSubscriber.outboundWorker 1 20].foldl add_external_subscriber []) =
      [.outboundWorker 1 10, .outboundWorker 1 20] ∧
    (([ExternalSubscriber.outboundWorker 1 10,
       ExternalSubscriber.outboundWorker 1 20].foldl add_external_subscriber []).filter
        (fun s => match s with
          | .outboundWorker w _ => w == 1
          | _ => false)).length = 2 := by
  decide

theorem add_external_subscriber_nodup (subs : List ExternalSubscriber)
    (sub : ExternalSubscriber) (h : subs.Nodup) :
    (add_external_subscriber subs sub).Nodup := by
  unfold add_external_subscriber
  refine List.Nodup.append (h.filter _) (List.nodup_singleton _) ?_
  intro a ha hb
  simp only [List.mem_singleton] at hb
  subst hb
  have := List.of_mem_filter ha
  simp at this

theorem foldl_add_external_subscriber_nodup (l : List ExternalSubscriber) :
    ∀ acc : List ExternalSubscriber, acc.Nodup →
      (l.foldl add_external_subscriber acc).Nodup := by
  induction l with
  | nil => intro acc h; exact h
  | cons s l ih =>
      intro acc h
      exact ih _ (add_external_subscriber_nodup acc s h)

/-- C7 (amended).  After any sequence of `add_external_subscriber` calls
starting from the empty table, the external-subscriber list holds no two
equal entries: de-duplication is on full structural equality — identity
AND stream id — so at most one entry exists per (identity, stream id)
pair, while two entries for the same worker id with different stream ids
may coexist. -/
theorem c7_dedup_on_value (l : List ExternalSubscriber) :
    (l.foldl add_external_subscriber []).Nodup :=
  foldl_add_external_subscriber_nodup l [] List.nodup_nil

/-- C10.  `consumes_message` of an `OutboundWorker` subscriber returns
`true` for every message with neither `route_to_worker_id` nor
`route_to_connection_id` set (an unaddressed message is eligible for every
worker peer), and `false` for every message with `route_to_connection_id`
set. -/
theorem c10_outbound_worker_consumes (msg : RMessage)
    (worker_id outbound_stream_id : Nat) :
    (msg.route_to_worker_id = none → msg.route_to_connection_id = none →
      (ExternalSubscriber.outboundWorker worker_id
        outbound_stream_id).consumes_message msg = true) ∧
    (∀ c, msg.route_to_connection_id = some c →
      (ExternalSubscriber.outboundWorker worker_id
        outbound_stream_id).consumes_message msg = false) := by
  constructor
  · intro hw hc
    simp [ExternalSubscriber.consumes_message, hw, hc]
  · intro c hc
    cases hw : msg.route_to_worker_id <;>
      simp [ExternalSubscriber.consumes_message, hw, hc]

/-- A message addressed to a connection. -/
def connMsg : RMessage where
  payload := .getQueryDataResp
  sent_from_worker_id := none
  route_to_worker_id := none
  route_to_operation_id := none
  route_to_connection_id := some 8
  inbound_stream_id := none
  outbound_stream_id := none

theorem c10_outbound_worker_consumes_witness :
    (ExternalSubscriber.outboundWorker 3 11).consumes_message pingMsg = true ∧
    (ExternalSubscriber.outboundWorker 3 11).consumes_message connMsg = false :=
  ⟨(c10_outbound_worker_consumes pingMsg 3 11).1 rfl rfl,
   (c10_outbound_worker_consumes connMsg 3 11).2 8 rfl⟩

end Router

namespace IdentifyExchange

/-- `IdentifyExchangeRequestError` from `identify_exchange_requests.rs`
(the variants the retry logic can produce), with `transport` standing for
a failed or timed-out `send_request`. -/
inductive IdentifyExchangeRequestError where
  | receivedTheWrongMessageType
  | receivedNoOperatorInstancesForTheExchange
  | receivedMultipleOperatorInstancesForTheExchange
  | exchangeOperatorInstanceIdNotSet
  | receivedMessageWithoutAWorkerId
  | transport (msg : String)
  deriving Repr, DecidableEq

/-- What one `ListOperatorInstancesRequest` attempt can observe from the
pipe: a `ListOperatorInstancesResponse` with its ids, a reply of the wrong
kind, or a transport failure. -/
inductive ListAttemptOutcome where
  | response (op_instance_ids : List Nat)
  | wrongMessage
  | transportErr (msg : String)
  deriving Repr, DecidableEq

/-- `get_exchange_operator_instance_id` (one attempt): exactly one listed
instance id yields that id; zero ids and more than one id are errors. -/
def get_exchange_operator_instance_id (o : ListAttemptOutcome) :
    Except IdentifyExchangeRequestError Nat :=
  match o with
  | .transportErr m => .error (.transport m)
  | .wrongMessage => .error .receivedTheWrongMessageType
  | .response [x] => .ok x
  | .response [] => .error .receivedNoOperatorInstancesForTheExchange
  | .response _ => .error .receivedMultipleOperatorInstancesForTheExchange

/-- What one `Ping` attempt can observe: a `Pong` (with or without
`sent_from_worker_id`), a `Ping` back, a reply of the wrong kind, or a
transport failure. -/
inductive PingAttemptOutcome where
  | pong (sent_from_worker_id : Option Nat)
  | pingBack
  | wrongMessage
  | transportErr (msg : String)
  deriving Repr, DecidableEq

/-- `get_exchange_worker_id` (one attempt): requires the exchange operator
instance id to be set; a `Pong` carrying `sent_from_worker_id` yields that
worker id. -/
def get_exchange_worker_id (exchange_operator_instance_id : Option Nat)
    (o : PingAttemptOutcome) : Except IdentifyExchangeRequestError Nat :=
  match exchange_operator_instance_id with
  | none => .error .exchangeOperatorInstanceIdNotSet
  | some _ =>
    match o with
    | .transportErr m => .error (.transport m)
    | .wrongMessage => .error .receivedTheWrongMessageType
    | .pong (some worker_id) => .ok worker_id
    | .pong none => .error .receivedMessageWithoutAWorkerId
    | .pingBack => .error .receivedTheWrongMessageType

/-- The trace of one `*_with_retry` call: its result, how many attempts
were made, and the seconds slept between attempts, in order. -/
structure RetryTrace where
  result : Except IdentifyExchangeRequestError Nat
  attempts : Nat
  sleeps : List Nat

/-- The shared retry loop of `get_exchange_operator_instance_id_with_retry`
and `get_exchange_worker_id_with_retry`:
`for retry_idx in 0..(num_retries + 1)` — return the first success; on
failure at `retry_idx == num_retries` return the error, otherwise sleep
`min(retry_idx + 1, 5)` seconds and try again. -/
def retryGo (attempt : Nat → Except IdentifyExchangeRequestError Nat)
    (retry_idx : Nat) (sleeps : List Nat) :
    Nat → RetryTrace
  | 0 =>
    match attempt retry_idx with
    | .ok v => { result := .ok v, attempts := retry_idx + 1, sleeps }
    | .error e => { result := .error e, attempts := retry_idx + 1, sleeps }
  | remaining + 1 =>
    match attempt retry_idx with
    | .ok v => { result := .ok v, attempts := retry_idx + 1, sleeps }
    | .error _ =>
      retryGo attempt (retry_idx + 1) (sleeps ++ [min (retry_idx + 1) 5]) remaining

/-- `get_exchange_operator_instance_id_with_retry`. -/
def get_exchange_operator_instance_id_with_retry
    (outcomes : Nat → ListAttemptOutcome) (num_retries : Nat) : RetryTrace :=
  retryGo (fun k => get_exchange_operator_instance_id (outcomes k)) 0 [] num_retries

/-- `get_exchange_worker_id_with_retry`. -/
def get_exchange_worker_id_with_retry (exchange_operator_instance_id : Option Nat)
    (outcomes : Nat → PingAttemptOutcome) (num_retries : Nat) : RetryTrace :=
  retryGo (fun k => get_exchange_worker_id exchange_operator_instance_id (outcomes k))
    0 [] num_retries

theorem retry2_bounds (attempt : Nat → Except IdentifyExchangeRequestError Nat) :
    (retryGo attempt 0 [] 2).attempts ≤ 3 ∧
    (retryGo attempt 0 [] 2).sleeps = [1, 2].take ((retryGo attempt 0 [] 2).attempts - 1) := by
  rcases h0 : attempt 0 with e0 | v0 <;>
    rcases h1 : attempt 1 with e1 | v1 <;>
    rcases h2 : attempt 2 with e2 | v2 <;>
    simp [retryGo, h0, h1, h2]

/-- C8.  With `num_retries = 2` (the value `identify_exchange` passes),
each discovery step makes at most 3 attempts, sleeping 1 s before the
first retry and 2 s before the second; a response listing exactly one
instance id yields that id on whichever attempt it arrives; a response
listing zero instance ids is an error for that attempt and is retried,
only surfacing as `ReceivedNoOperatorInstancesForTheExchange` once all
three attempts have failed; and a response listing more than one instance
id is an error (`ReceivedMultipleOperatorInstancesForTheExchange`). -/
theorem c8_retry_schedule (outcomes : Nat → ListAttemptOutcome)
    (exchange_operator_instance_id : Option Nat)
    (pouts : Nat → PingAttemptOutcome) :
    ((get_exchange_operator_instance_id_with_retry outcomes 2).attempts ≤ 3 ∧
     (get_exchange_worker_id_with_retry exchange_operator_instance_id pouts 2).attempts ≤ 3) ∧
    ((get_exchange_operator_instance_id_with_retry outcomes 2).sleeps =
      [1, 2].take ((get_exchange_operator_instance_id_with_retry outcomes 2).attempts - 1) ∧
     (get_exchange_worker_id_with_retry exchange_operator_instance_id pouts 2).sleeps =
      [1, 2].take
        ((get_exchange_worker_id_with_retry exchange_operator_instance_id pouts 2).attempts - 1)) ∧
    (∀ x, outcomes 0 = .response [x] →
      (get_exchange_operator_instance_id_with_retry outcomes 2).result = .ok x ∧
      (get_exchange_operator_instance_id_with_retry outcomes 2).attempts = 1) ∧
    (∀ x, outcomes 0 = .response [] → outcomes 1 = .response [x] →
      (get_exchange_operator_instance_id_with_retry outcomes 2).result = .ok x ∧
      (get_exchange_operator_instance_id_with_retry outcomes 2).attempts = 2 ∧
      (get_exchange_operator_instance_id_with_retry outcomes 2).sleeps = [1]) ∧
    (∀ x, outcomes 0 = .response [] → outcomes 1 = .response [] →
        outcomes 2 = .response [x] →
      (get_exchange_operator_instance_id_with_retry outcomes 2).result = .ok x ∧
      (get_exchange_operator_instance_id_with_retry outcomes 2).attempts = 3 ∧
      (get_exchange_operator_instance_id_with_retry outcomes 2).sleeps = [1, 2]) ∧
    ((∀ k, k ≤ 2 → outcomes k = .response []) →
      (get_exchange_operator_instance_id_with_retry outcomes 2).result =
        .error .receivedNoOperatorInstancesForTheExchange ∧
      (get_exchange_operator_instance_id_with_retry outcomes 2).attempts = 3) ∧
    (∀ ids : List Nat, 2 ≤ ids.length →
      get_exchange_operator_instance_id (.response ids) =
        .error .receivedMultipleOperatorInstancesForTheExchange) := by
  refine ⟨⟨(retry2_bounds _).1, (retry2_bounds _).1⟩,
    ⟨(retry2_bounds _).2, (retry2_bounds _).2⟩, ?_, ?_, ?_, ?_, ?_⟩
  · intro x h0
    simp [get_exchange_operator_instance_id_with_retry, retryGo,
      get_exchange_operator_instance_id, h0]
  · intro x h0 h1
    simp [get_exchange_operator_instance_id_with_retry, retryGo,
      get_exchange_operator_instance_id, h0, h1]
  · intro x h0 h1 h2
    simp [get_exchange_operator_instance_id_with_retry, retryGo,
      get_exchange_operator_instance_id, h0, h1, h2]
  · intro hall
    simp [get_exchange_operator_instance_id_with_retry, retryGo,
      get_exchange_operator_instance_id,
      hall 0 (by omega), hall 1 (by omega), hall 2 (by omega)]
  · intro ids hlen
    match ids, hlen with
    | x :: y :: rest, _ => simp [get_exchange_operator_instance_id]

/-- The responses of a discovery in which the exchange appears on the
second attempt. -/
def outsEx : Nat → ListAttemptOutcome := fun k =>
  if k = 0 then .response [] else .response [42]

def poutsEx : Nat → PingAttemptOutcome := fun _ => .pong (some 7)

theorem c8_retry_schedule_witness :
    (((get_exchange_operator_instance_id_with_retry outsEx 2).attempts ≤ 3 ∧
     (get_exchange_worker_id_with_retry (some 42) poutsEx 2).attempts ≤ 3) ∧
    ((get_exchange_operator_instance_id_with_retry outsEx 2).sleeps =
      [1, 2].take ((get_exchange_operator_instance_id_with_retry outsEx 2).attempts - 1) ∧
     (get_exchange_worker_id_with_retry (some 42) poutsEx 2).sleeps =
      [1, 2].take ((get_exchange_worker_id_with_retry (some 42) poutsEx 2).attempts - 1)) ∧
    (∀ x, outsEx 0 = .response [x] →
      (get_exchange_operator_instance_id_with_retry outsEx 2).result = .ok x ∧
      (get_exchange_operator_instance_id_with_retry outsEx 2).attempts = 1) ∧
    (∀ x, outsEx 0 = .response [] → outsEx 1 = .response [x] →
      (get_exchange_operator_instance_id_with_retry outsEx 2).result = .ok x ∧
      (get_exchange_operator_instance_id_with_retry outsEx 2).attempts = 2 ∧
      (get_exchange_operator_instance_id_with_retry outsEx 2).sleeps = [1]) ∧
    (∀ x, outsEx 0 = .response [] → outsEx 1 = .response [] →
        outsEx 2 = .response [x] →
      (get_exchange_operator_instance_id_with_retry outsEx 2).result = .ok x ∧
      (get_exchange_operator_instance_id_with_retry outsEx 2).attempts = 3 ∧
      (get_exchange_operator_instance_id_with_retry outsEx 2).sleeps = [1, 2]) ∧
    ((∀ k, k ≤ 2 → outsEx k = .response []) →
      (get_exchange_operator_instance_id_with_retry outsEx 2).result =
        .error .receivedNoOperatorInstancesForTheExchange ∧
      (get_exchange_operator_instance_id_with_retry outsEx 2).attempts = 3) ∧
    (∀ ids : List Nat, 2 ≤ ids.length →
      get_exchange_operator_instance_id (.response ids) =
        .error .receivedMultipleOperatorInstancesForTheExchange)) :=
  c8_retry_schedule outsEx (some 42) poutsEx

end IdentifyExchange
